import Mathlib

/-!
Verification development for the hostel-management backend room-allocation
and payment-accounting core.  The definitions below are a shallow embedding of
the request handlers in `src/routes/payment.routes.js`,
`src/routes/checkin.routes.js`, `src/routes/expense.routes.js` and
`src/utils/feature-settings.util.js`: SQL tables become lists of records,
monetary decimals become exact rationals, and each Express handler becomes a
function from a database state and request data to a structured
result together with the successor state.
-/

set_option linter.unusedVariables false

deriving instance DecidableEq for Except

namespace HMS

/-- JavaScript truthiness for an optional numeric id: `null`/`undefined` and
`0` are falsy (`if (!x)` rejects both). -/
def optTruthy : Option Nat → Option Nat
  | some n => if n = 0 then none else some n
  | none => none

/-- JavaScript truthiness for an optional string (empty string is falsy). -/
def strTruthy : Option String → Bool
  | some s => !(s = "")
  | none => false

/-- Staff roles accepted by the payment/allocation routes. -/
inductive Role
  | CUSTODIAN
  | SUPER_ADMIN
  | HOSTEL_OWNER
deriving DecidableEq, Repr

/-- The authenticated caller (`req.user` from the JWT payload). -/
structure User where
  sub : Nat
  role : Role
  hostelId : Option Nat
deriving DecidableEq, Repr

/-- A row of the `rooms` table (the columns the handlers read). -/
structure Room where
  id : Nat
  hostelId : Nat
  price : ℚ
  capacity : Nat
  isActive : Bool
deriving DecidableEq, Repr

/-- A row of the `students` table (the columns the handlers read). -/
structure Student where
  id : Nat
  hostelId : Nat
  semesterId : Option Nat
  email : Option String
  phone : Option String
deriving DecidableEq, Repr

/-- A row of the `semesters` table. -/
structure Semester where
  id : Nat
  hostelId : Nat
  isActive : Bool
deriving DecidableEq, Repr

/-- A row of the `allocations` table. -/
structure Allocation where
  id : Nat
  hostelId : Nat
  semesterId : Nat
  studentId : Nat
  roomId : Nat
  roomPriceAtAllocation : ℚ
  displayPriceAtAllocation : Option ℚ
deriving DecidableEq, Repr

/-- A row of the `payments` table.  `recordedAt` is the `recorded_at`
timestamp (seconds). -/
structure Payment where
  id : Nat
  allocationId : Nat
  semesterId : Nat
  amount : ℚ
  recordedByUserId : Nat
  recordedAt : ℚ
deriving DecidableEq, Repr

/-- A row of the `check_ins` table. -/
structure CheckIn where
  id : Nat
  studentId : Nat
  hostelId : Nat
  semesterId : Nat
  checkedInAt : ℚ
  checkedOutAt : Option ℚ
  checkedOutByUserId : Option Nat
deriving DecidableEq, Repr

/-- A row of the `expenses` table (dates abstracted to naturals that compare
chronologically). -/
structure Expense where
  id : Nat
  hostelId : Nat
  semesterId : Nat
  amount : ℚ
  category : Option String
  expenseDate : Nat
deriving DecidableEq, Repr

/-- A row of the `hostel_feature_settings` table. -/
structure FeatureSetting where
  hostelId : Nat
  featureName : String
  enabledForCustodian : Bool
deriving DecidableEq, Repr

/-- Database state: the tables touched by the embedded handlers, plus the
auto-increment counters. -/
structure Db where
  rooms : List Room
  students : List Student
  semesters : List Semester
  allocations : List Allocation
  payments : List Payment
  checkIns : List CheckIn
  expenses : List Expense
  featureSettings : List FeatureSetting
  nextAllocationId : Nat
  nextPaymentId : Nat
  nextCheckInId : Nat
deriving DecidableEq, Repr

/-! ### Embedded SQL queries -/

/-- Embeds `SELECT COALESCE(SUM(amount),0) FROM payments WHERE allocation_id = ?`. -/
def paymentsSum (ps : List Payment) (allocationId : Nat) : ℚ :=
  ((ps.filter (fun p => p.allocationId == allocationId)).map (fun p => p.amount)).sum

/-- Total recorded payments for an allocation in a database state. -/
def allocTotalPaid (db : Db) (allocationId : Nat) : ℚ :=
  paymentsSum db.payments allocationId

/-- Embeds `EXISTS (SELECT 1 FROM check_ins WHERE student_id = ? AND semester_id = ?
AND checked_out_at IS NOT NULL)` — the student has a closed check-in. -/
def hasClosedCheckIn (cis : List CheckIn) (studentId semesterId : Nat) : Bool :=
  cis.any (fun ci =>
    ci.studentId == studentId && ci.semesterId == semesterId && ci.checkedOutAt.isSome)

/-- The capacity-check count from `POST /payments/allocate`: allocations for
(roomId, semesterId) whose student has no closed check-in for the
semester of the allocation. -/
def occupiedCount (allocs : List Allocation) (cis : List CheckIn)
    (roomId semesterId : Nat) : Nat :=
  (allocs.filter (fun a =>
    a.roomId == roomId && a.semesterId == semesterId &&
      !(hasClosedCheckIn cis a.studentId a.semesterId))).length

/-- Occupancy count read off a database state. -/
def countOccupied (db : Db) (roomId semesterId : Nat) : Nat :=
  occupiedCount db.allocations db.checkIns roomId semesterId

/-- All allocation rows for a (room, semester), whether or not the student
has checked out. -/
def rowsForRoom (db : Db) (roomId semesterId : Nat) : Nat :=
  (db.allocations.filter (fun a =>
    a.roomId == roomId && a.semesterId == semesterId)).length

/-- Embeds `SELECT id FROM semesters WHERE hostel_id = ? AND is_active = 1 LIMIT 1`. -/
def activeSemesterFor (db : Db) (hostelId : Nat) : Option Nat :=
  (db.semesters.find? (fun s => s.hostelId == hostelId && s.isActive)).map (fun s => s.id)

/-- Embeds `isCustodianPriceMarkupEnabled` from `feature-settings.util.js`: false for
a falsy hostel id, otherwise the `enabled_for_custodian` flag of the
`allow_custodian_price_markup` setting, defaulting to false. -/
def isCustodianPriceMarkupEnabled (db : Db) (hostelId : Nat) : Bool :=
  if hostelId = 0 then false
  else
    match db.featureSettings.find? (fun s =>
        s.hostelId == hostelId && s.featureName == "allow_custodian_price_markup") with
    | some s => s.enabledForCustodian
    | none => false

/-- Embeds `Number(room.capacity) || 1`: a zero capacity is coerced to 1. -/
def effCapacity (room : Room) : Nat :=
  if room.capacity = 0 then 1 else room.capacity

/-- The per-student price computation from the allocate handler: full room
price for a single room, `price / capacity` otherwise. -/
def pricePerStudentFn (roomPrice : ℚ) (roomCapacity : Nat) : ℚ :=
  if roomCapacity = 1 then roomPrice else roomPrice / (roomCapacity : ℚ)

/-! ### Notification dispatch (external collaborator interface) -/

/-- Outcome of one provider send attempt: the provider either throws, or
returns a `{success, historyId}` record. -/
inductive SendOutcome
  | thrown
  | returned (success : Bool) (historyId : Option Nat)
deriving DecidableEq, Repr

/-- Environment fixing the outcome of each notification attempt a handler
might make. -/
structure NotifyEnv where
  email : SendOutcome
  sms : SendOutcome
  receiptDataThrows : Bool
deriving DecidableEq, Repr

/-- The email-first, SMS-fallback dispatch block shared by the allocate and
payment handlers.  Every attempt sits inside its own try/catch, so a thrown
send leaves the corresponding result `none` and never escapes. -/
def dispatchNotify (env : NotifyEnv) (hasEmail hasPhone : Bool) :
    Option (Bool × Option Nat) × Option (Bool × Option Nat) :=
  if hasEmail then
    match env.email with
    | .returned s h => (some (s, h), none)
    | .thrown =>
      if hasPhone then
        match env.sms with
        | .returned s h => (none, some (s, h))
        | .thrown => (none, none)
      else (none, none)
  else if hasPhone then
    match env.sms with
    | .returned s h => (none, some (s, h))
    | .thrown => (none, none)
  else (none, none)

/-- Embeds `result?.success || false`. -/
def sentFlag : Option (Bool × Option Nat) → Bool
  | some r => r.1
  | none => false

/-- Embeds `result?.historyId || null`. -/
def histId : Option (Bool × Option Nat) → Option Nat
  | some r => r.2
  | none => none

/-! ### POST /payments/allocate -/

/-- Request body of `POST /payments/allocate` after Joi validation. -/
structure AllocateReq where
  studentId : Nat
  roomId : Nat
  hostelId : Option Nat
  displayPrice : Option ℚ
deriving DecidableEq, Repr

/-- Structured errors of the allocate handler, one constructor per early
return in the source. -/
inductive AllocErr
  | invalidBody
  | hostelIdRequired
  | notLinkedToHostel
  | roomNotFound
  | roomWrongHostel
  | studentNotFound
  | studentWrongHostel
  | noSemester
  | alreadyAllocatedSameRoom
  | alreadyAllocatedOtherRoom (existingRoomId : Nat)
  | roomFull (occupied capacity : Nat)
  | displayPriceNeedsFeature
  | displayPriceNeedsCustodian
  | displayPriceBelowActual
deriving DecidableEq, Repr

/-- HTTP status of each allocate error response. -/
def AllocErr.status : AllocErr → Nat
  | .invalidBody => 400
  | .hostelIdRequired => 400
  | .notLinkedToHostel => 400
  | .roomNotFound => 404
  | .roomWrongHostel => 403
  | .studentNotFound => 404
  | .studentWrongHostel => 403
  | .noSemester => 400
  | .alreadyAllocatedSameRoom => 409
  | .alreadyAllocatedOtherRoom _ => 409
  | .roomFull _ _ => 400
  | .displayPriceNeedsFeature => 400
  | .displayPriceNeedsCustodian => 403
  | .displayPriceBelowActual => 400

/-- Success body of `POST /payments/allocate` (HTTP 201). -/
structure AllocOk where
  allocationId : Nat
  totalRequired : ℚ
  roomCapacity : Nat
  pricePerStudent : ℚ
  emailSent : Bool
  emailHistoryId : Option Nat
  smsSent : Bool
  smsHistoryId : Option Nat
deriving DecidableEq, Repr

/-- Hostel-scope resolution shared by the handlers: a SUPER_ADMIN must supply
a (truthy) hostel id in the request, every other role must be linked to a
hostel. -/
def resolveHostel (u : User) (bodyHostelId : Option Nat) : Except Unit Nat :=
  if u.role = Role.SUPER_ADMIN then
    match optTruthy bodyHostelId with
    | some h => .ok h
    | none => .error ()
  else
    match optTruthy u.hostelId with
    | some h => .ok h
    | none => .error ()

/-- Embeds `SELECT ... FROM rooms WHERE id = ? AND is_active = 1 LIMIT 1`. -/
def findRoom (db : Db) (roomId : Nat) : Option Room :=
  db.rooms.find? (fun r => r.id == roomId && r.isActive)

/-- Embeds `SELECT ... FROM students WHERE id = ? LIMIT 1`. -/
def findStudent (db : Db) (studentId : Nat) : Option Student :=
  db.students.find? (fun s => s.id == studentId)

/-- Embeds `SELECT id, room_id FROM allocations WHERE student_id = ? AND
semester_id = ? LIMIT 1` — the idempotency lookup. -/
def findAllocForStudent (db : Db) (studentId semesterId : Nat) : Option Allocation :=
  db.allocations.find? (fun a => a.studentId == studentId && a.semesterId == semesterId)

/-- The `POST /payments/allocate` handler.  Returns the structured response
and the successor database state. -/
def allocate (db : Db) (u : User) (req : AllocateReq) (env : NotifyEnv) :
    Except AllocErr AllocOk × Db :=
  -- Joi: displayPrice, when present, must be at least 0.01
  if (match req.displayPrice with
      | some dp => decide (dp < 1/100)
      | none => false) then
    (.error .invalidBody, db)
  else
  match resolveHostel u req.hostelId with
  | .error _ =>
    (.error (if u.role = Role.SUPER_ADMIN then .hostelIdRequired else .notLinkedToHostel), db)
  | .ok effectiveHostelId =>
  match findRoom db req.roomId with
  | none => (.error .roomNotFound, db)
  | some room =>
  if room.hostelId ≠ effectiveHostelId then (.error .roomWrongHostel, db)
  else
  match findStudent db req.studentId with
  | none => (.error .studentNotFound, db)
  | some student =>
  if student.hostelId ≠ effectiveHostelId then (.error .studentWrongHostel, db)
  else
  match optTruthy student.semesterId with
  | none => (.error .noSemester, db)
  | some studentSemesterId =>
  match findAllocForStudent db req.studentId studentSemesterId with
  | some existing =>
    if existing.roomId = req.roomId then (.error .alreadyAllocatedSameRoom, db)
    else (.error (.alreadyAllocatedOtherRoom existing.roomId), db)
  | none =>
  let currentOccupancy := countOccupied db req.roomId studentSemesterId
  let roomCapacity := effCapacity room
  if roomCapacity ≤ currentOccupancy then
    (.error (.roomFull currentOccupancy roomCapacity), db)
  else
  let roomPrice := room.price
  let pricePerStudent := pricePerStudentFn roomPrice roomCapacity
  let markupEnabled := isCustodianPriceMarkupEnabled db effectiveHostelId
  match req.displayPrice with
  | some dp =>
    if !markupEnabled then (.error .displayPriceNeedsFeature, db)
    else if u.role ≠ Role.CUSTODIAN then (.error .displayPriceNeedsCustodian, db)
    else
      let displayPricePerStudent := pricePerStudentFn dp roomCapacity
      if displayPricePerStudent < pricePerStudent then
        (.error .displayPriceBelowActual, db)
      else
        allocInsert db u effectiveHostelId studentSemesterId req.studentId room
          pricePerStudent (some displayPricePerStudent) student env
  | none =>
      allocInsert db u effectiveHostelId studentSemesterId req.studentId room
        pricePerStudent none student env
where
  /-- Allocation insert, audit write and best-effort notification tail of the
  handler. -/
  allocInsert (db : Db) (u : User) (effectiveHostelId studentSemesterId studentId : Nat)
      (room : Room) (pricePerStudent : ℚ) (displayPricePerStudent : Option ℚ)
      (student : Student) (env : NotifyEnv) : Except AllocErr AllocOk × Db :=
    let newAlloc : Allocation :=
      { id := db.nextAllocationId
        hostelId := effectiveHostelId
        semesterId := studentSemesterId
        studentId := studentId
        roomId := room.id
        roomPriceAtAllocation := pricePerStudent
        displayPriceAtAllocation := displayPricePerStudent }
    let db1 : Db :=
      { db with
        allocations := db.allocations ++ [newAlloc]
        nextAllocationId := db.nextAllocationId + 1 }
    let results := dispatchNotify env (strTruthy student.email) (strTruthy student.phone)
    (.ok
      { allocationId := newAlloc.id
        totalRequired := pricePerStudent
        roomCapacity := effCapacity room
        pricePerStudent := pricePerStudent
        emailSent := sentFlag results.1
        emailHistoryId := histId results.1
        smsSent := sentFlag results.2
        smsHistoryId := histId results.2 }, db1)

/-- True on a 201 allocate response. -/
def isAllocOk : Except AllocErr AllocOk × Db → Bool
  | (.ok _, _) => true
  | (.error _, _) => false

/-! ### POST /payments -/

/-- Structured errors of the payment handler. -/
inductive PayErr
  | invalidAmount
  | allocationNotFound
  | notLinkedToHostel
  | wrongHostel
  | alreadyFullyPaid
  | exceedsBalance (amount maxAllowed : ℚ)
  | duplicateRecent (existingPaymentId : Nat)
deriving DecidableEq, Repr

/-- HTTP status of each payment error response. -/
def PayErr.status : PayErr → Nat
  | .invalidAmount => 400
  | .allocationNotFound => 404
  | .notLinkedToHostel => 400
  | .wrongHostel => 403
  | .alreadyFullyPaid => 400
  | .exceedsBalance _ _ => 400
  | .duplicateRecent _ => 409

/-- Success body of `POST /payments` (HTTP 201). -/
structure PayOk where
  allocationId : Nat
  paymentId : Nat
  totalRequired : ℚ
  totalPaid : ℚ
  balance : ℚ
  receiptSent : Bool
  emailSent : Bool
  emailHistoryId : Option Nat
  smsSent : Bool
  smsHistoryId : Option Nat
deriving DecidableEq, Repr

/-- Embeds `SELECT ... FROM allocations WHERE id = ? LIMIT 1`. -/
def findAllocById (db : Db) (allocationId : Nat) : Option Allocation :=
  db.allocations.find? (fun a => a.id == allocationId)

/-- The hostel-scope check of the payment routes: SUPER_ADMIN is exempt,
other roles must be linked to the hostel of the allocation. -/
def payScopeCheck (u : User) (allocHostelId : Nat) : Option PayErr :=
  if u.role = Role.SUPER_ADMIN then none
  else
    match optTruthy u.hostelId with
    | none => some .notLinkedToHostel
    | some h => if allocHostelId ≠ h then some .wrongHostel else none

/-- Duplicate-submission lookup: a payment for the same allocation, amount
and recording user within the last 5 seconds. -/
def findRecentDuplicate (ps : List Payment) (allocationId : Nat) (amount : ℚ)
    (userId : Nat) (now : ℚ) : Option Payment :=
  ps.find? (fun p =>
    p.allocationId == allocationId && decide (p.amount = amount) &&
      p.recordedByUserId == userId && decide (now - 5 ≤ p.recordedAt))

/-- The receipt-dispatch tail of the payment handler.  The whole block sits
in an outer try/catch (covering `getReceiptData` and the student lookup), and
each send sits in its own inner try/catch. -/
def receiptDispatch (env : NotifyEnv) (db : Db) (allocationId : Nat) :
    Option (Bool × Option Nat) × Option (Bool × Option Nat) :=
  if env.receiptDataThrows then (none, none)
  else
    match findAllocById db allocationId with
    | none => (none, none)
    | some a =>
      match findStudent db a.studentId with
      | none => (none, none)
      | some student =>
        dispatchNotify env (strTruthy student.email) (strTruthy student.phone)

/-- The `POST /payments` handler: validate, scope-check, enforce the
overpayment ceiling, debounce duplicates, insert, recompute the balance and
send a best-effort receipt. -/
def recordPayment (db : Db) (u : User) (allocationId : Nat) (amount : ℚ) (now : ℚ)
    (env : NotifyEnv) : Except PayErr PayOk × Db :=
  -- Joi: amount must be at least 0.01
  if amount < 1/100 then (.error .invalidAmount, db)
  else
  match findAllocById db allocationId with
  | none => (.error .allocationNotFound, db)
  | some allocation =>
  match payScopeCheck u allocation.hostelId with
  | some e => (.error e, db)
  | none =>
  let markupEnabled := isCustodianPriceMarkupEnabled db allocation.hostelId
  let actualPrice := allocation.roomPriceAtAllocation
  let displayPrice : Option ℚ :=
    match allocation.displayPriceAtAllocation with
    | some d => if d = 0 then none else some d
    | none => none
  let markupFactor : ℚ :=
    match displayPrice with
    | some d => if markupEnabled then d / actualPrice else 1
    | none => 1
  let currentTotalPaid := allocTotalPaid db allocationId
  let currentBalance := actualPrice - currentTotalPaid
  if currentBalance ≤ 0 then (.error .alreadyFullyPaid, db)
  else if currentBalance < amount then
    (.error (.exceedsBalance amount currentBalance), db)
  else
  match findRecentDuplicate db.payments allocationId amount u.sub now with
  | some recent => (.error (.duplicateRecent recent.id), db)
  | none =>
  let newPayment : Payment :=
    { id := db.nextPaymentId
      allocationId := allocationId
      semesterId := allocation.semesterId
      amount := amount
      recordedByUserId := u.sub
      recordedAt := now }
  let db1 : Db :=
    { db with
      payments := db.payments ++ [newPayment]
      nextPaymentId := db.nextPaymentId + 1 }
  let totalPaid := allocTotalPaid db1 allocationId
  let balance := actualPrice - totalPaid
  let displayTotalPaid := totalPaid * markupFactor
  let displayTotalRequired := match displayPrice with | some d => d | none => actualPrice
  let displayBalance := displayTotalRequired - displayTotalPaid
  let results := receiptDispatch env db1 allocationId
  (.ok
    { allocationId := allocationId
      paymentId := newPayment.id
      totalRequired := actualPrice
      totalPaid := totalPaid
      balance := balance
      receiptSent := sentFlag results.1 || sentFlag results.2
      emailSent := sentFlag results.1
      emailHistoryId := histId results.1
      smsSent := sentFlag results.2
      smsHistoryId := histId results.2 }, db1)

/-- True on a 201 payment response. -/
def isPayOk : Except PayErr PayOk × Db → Bool
  | (.ok _, _) => true
  | (.error _, _) => false

/-! ### DELETE /payments/allocations/:id (checkout of an allocation) -/

/-- Structured errors of the allocation-delete handler. -/
inductive DeleteErr
  | allocationNotFound
  | notLinkedToHostel
  | wrongHostel
deriving DecidableEq, Repr

/-- The `DELETE /payments/allocations/:allocationId` handler: scope-check,
then hard-delete the allocation row. -/
def deleteAllocation (db : Db) (u : User) (allocationId : Nat) :
    Except DeleteErr Unit × Db :=
  match findAllocById db allocationId with
  | none => (.error .allocationNotFound, db)
  | some allocation =>
    match
      (if u.role = Role.SUPER_ADMIN then none
       else
         match optTruthy u.hostelId with
         | none => some DeleteErr.notLinkedToHostel
         | some h => if allocation.hostelId ≠ h then some DeleteErr.wrongHostel else none) with
    | some e => (.error e, db)
    | none =>
      (.ok (),
        { db with allocations := db.allocations.filter (fun a => !(a.id == allocationId)) })

/-! ### POST /check-ins and POST /check-ins/checkout -/

/-- Structured errors of the check-in / check-out handlers. -/
inductive CheckInErr
  | hostelIdRequired
  | notLinkedToHostel
  | studentNotFound
  | studentWrongHostel
  | noSemester
  | alreadyCheckedIn
  | notCheckedIn
deriving DecidableEq, Repr

/-- Embeds `SELECT id FROM check_ins WHERE student_id = ? AND semester_id = ? AND
checked_out_at IS NULL LIMIT 1` — the open check-in lookup. -/
def findOpenCheckIn (cis : List CheckIn) (studentId semesterId : Nat) : Option CheckIn :=
  cis.find? (fun ci =>
    ci.studentId == studentId && ci.semesterId == semesterId && ci.checkedOutAt.isNone)

/-- The `POST /check-ins` handler: scope, student validation, reject an open
duplicate, insert an open check-in row. -/
def checkInStudent (db : Db) (u : User) (studentId : Nat) (bodyHostelId : Option Nat)
    (t : ℚ) : Except CheckInErr Nat × Db :=
  match resolveHostel u bodyHostelId with
  | .error _ =>
    (.error (if u.role = Role.SUPER_ADMIN then .hostelIdRequired else .notLinkedToHostel), db)
  | .ok effectiveHostelId =>
  match findStudent db studentId with
  | none => (.error .studentNotFound, db)
  | some student =>
  if student.hostelId ≠ effectiveHostelId then (.error .studentWrongHostel, db)
  else
  match optTruthy student.semesterId with
  | none => (.error .noSemester, db)
  | some semesterId =>
  match findOpenCheckIn db.checkIns studentId semesterId with
  | some _ => (.error .alreadyCheckedIn, db)
  | none =>
    let newCi : CheckIn :=
      { id := db.nextCheckInId
        studentId := studentId
        hostelId := effectiveHostelId
        semesterId := semesterId
        checkedInAt := t
        checkedOutAt := none
        checkedOutByUserId := none }
    (.ok newCi.id,
      { db with checkIns := db.checkIns ++ [newCi], nextCheckInId := db.nextCheckInId + 1 })

/-- The `POST /check-ins/checkout` handler: scope, student validation, find
the open check-in, stamp `checked_out_at`. -/
def checkOutStudent (db : Db) (u : User) (studentId : Nat) (bodyHostelId : Option Nat)
    (t : ℚ) : Except CheckInErr Unit × Db :=
  match resolveHostel u bodyHostelId with
  | .error _ =>
    (.error (if u.role = Role.SUPER_ADMIN then .hostelIdRequired else .notLinkedToHostel), db)
  | .ok effectiveHostelId =>
  match findStudent db studentId with
  | none => (.error .studentNotFound, db)
  | some student =>
  if student.hostelId ≠ effectiveHostelId then (.error .studentWrongHostel, db)
  else
  match optTruthy student.semesterId with
  | none => (.error .noSemester, db)
  | some semesterId =>
  match findOpenCheckIn db.checkIns studentId semesterId with
  | none => (.error .notCheckedIn, db)
  | some ci =>
    (.ok (),
      { db with
        checkIns := db.checkIns.map (fun c =>
          if c.id == ci.id then
            { c with checkedOutAt := some t, checkedOutByUserId := some u.sub }
          else c) })

/-! ### Sequential executions -/

/-- One request against the core: the five state-changing handlers embedded
above. -/
inductive Op
  | allocateOp (u : User) (req : AllocateReq) (env : NotifyEnv)
  | payOp (u : User) (allocationId : Nat) (amount now : ℚ) (env : NotifyEnv)
  | deleteAllocOp (u : User) (allocationId : Nat)
  | checkInOp (u : User) (studentId : Nat) (bodyHostelId : Option Nat) (t : ℚ)
  | checkOutOp (u : User) (studentId : Nat) (bodyHostelId : Option Nat) (t : ℚ)
deriving Repr

/-- State transition of one request (its response is discarded). -/
def applyOp (db : Db) : Op → Db
  | .allocateOp u req env => (allocate db u req env).2
  | .payOp u aid amount now env => (recordPayment db u aid amount now env).2
  | .deleteAllocOp u aid => (deleteAllocation db u aid).2
  | .checkInOp u sid bh t => (checkInStudent db u sid bh t).2
  | .checkOutOp u sid bh t => (checkOutStudent db u sid bh t).2

/-- A sequential execution of requests. -/
def runOps (db : Db) (ops : List Op) : Db :=
  ops.foldl applyOp db

/-- One `POST /payments` call in a sequential payment history. -/
structure PayCall where
  u : User
  allocationId : Nat
  amount : ℚ
  now : ℚ
  env : NotifyEnv

/-- Sequential execution of payment calls only. -/
def applyPayCalls (db : Db) (calls : List PayCall) : Db :=
  calls.foldl (fun d c => (recordPayment d c.u c.allocationId c.amount c.now c.env).2) db

/-! ### Listing endpoints -/

/-- Embeds `GET /payments`: SUPER_ADMIN sees the active semester of the queried
hostel (or everything when none resolves); other roles see the active semester of their own hostel, or an empty list when none is active. -/
def listPayments (db : Db) (u : User) (queryHostelId : Option Nat) :
    Except Unit (List Payment) :=
  if u.role = Role.SUPER_ADMIN then
    let activeSemesterId :=
      match optTruthy queryHostelId with
      | some h => activeSemesterFor db h
      | none => none
    match activeSemesterId with
    | some semId => .ok (db.payments.filter (fun p => p.semesterId == semId))
    | none => .ok db.payments
  else
    match optTruthy u.hostelId with
    | none => .error ()
    | some h =>
      match activeSemesterFor db h with
      | some semId =>
        .ok (db.payments.filter (fun p =>
          p.semesterId == semId &&
            db.allocations.any (fun a => a.id == p.allocationId && a.hostelId == h)))
      | none => .ok []

/-- Embeds `GET /payments/allocations`: same semester scoping as `GET /payments`,
over allocation rows. -/
def listAllocations (db : Db) (u : User) (queryHostelId : Option Nat) :
    Except Unit (List Allocation) :=
  if u.role = Role.SUPER_ADMIN then
    let activeSemesterId :=
      match optTruthy queryHostelId with
      | some h => activeSemesterFor db h
      | none => none
    match activeSemesterId with
    | some semId => .ok (db.allocations.filter (fun a => a.semesterId == semId))
    | none => .ok db.allocations
  else
    match optTruthy u.hostelId with
    | none => .error ()
    | some h =>
      match activeSemesterFor db h with
      | some semId =>
        .ok (db.allocations.filter (fun a => a.hostelId == h && a.semesterId == semId))
      | none => .ok []

/-- Query string of `GET /expenses`. -/
structure ExpenseQuery where
  hostelId : Option Nat
  semesterId : Option Nat
  startDate : Option Nat
  endDate : Option Nat
  category : Option String
  limit : Option Nat
  offset : Option Nat
deriving Repr

/-- Response body of `GET /expenses`. -/
structure ExpensesResp where
  expenses : List Expense
  total : Nat
  limit : Nat
  offset : Nat
deriving DecidableEq, Repr

/-- The shared row filters of the `GET /expenses` list and count queries
(hostel, semester, date range, category). -/
def expenseRowMatches (hostelCond : Option Nat) (semesterFilter : Nat)
    (q : ExpenseQuery) (e : Expense) : Bool :=
  (match hostelCond with
   | some h => e.hostelId == h
   | none => true) &&
  e.semesterId == semesterFilter &&
  (match q.startDate with
   | some d => decide (d ≤ e.expenseDate)
   | none => true) &&
  (match q.endDate with
   | some d => decide (e.expenseDate ≤ d)
   | none => true) &&
  (match q.category with
   | some c => e.category == some c
   | none => true)

/-- The `GET /expenses` handler.  When neither an explicit `semesterId` nor
an active semester resolves, it answers an empty page rather than an error. -/
def listExpenses (db : Db) (u : User) (q : ExpenseQuery) : Except Unit ExpensesResp :=
  match
    (if u.role = Role.SUPER_ADMIN then
      .ok (optTruthy q.hostelId)
     else
      match optTruthy u.hostelId with
      | none => Except.error ()
      | some h => Except.ok (some h) : Except Unit (Option Nat)) with
  | .error _ => .error ()
  | .ok effectiveHostelId =>
    let activeSemesterId :=
      match effectiveHostelId with
      | some h => activeSemesterFor db h
      | none => none
    let lim := match optTruthy q.limit with | some l => l | none => 1000
    let off := match optTruthy q.offset with | some o => o | none => 0
    let semesterFilter :=
      match optTruthy q.semesterId with
      | some s => some s
      | none => activeSemesterId
    match semesterFilter with
    | none => .ok { expenses := [], total := 0, limit := lim, offset := off }
    | some semId =>
      -- the hostel condition applies for non-admins (their linked hostel)
      -- or when the admin supplied a hostel id, in list and count alike
      let rows := db.expenses.filter (expenseRowMatches effectiveHostelId semId q)
      .ok
        { expenses := (rows.drop off).take lim
          total := rows.length
          limit := lim
          offset := off }

/-- Response body of `GET /expenses/stats`. -/
structure ExpenseStats where
  total : ℚ
  byCategory : List (Option String × ℚ)
deriving DecidableEq, Repr

/-- Rows considered by the stats queries: hostel, semester and date range
(the hostel parameter is compared even when null, matching
`WHERE hostel_id = ?` with a null parameter, which matches nothing). -/
def statsRowMatches (effectiveHostelId : Option Nat) (semesterFilter : Nat)
    (startDate endDate : Option Nat) (e : Expense) : Bool :=
  (match effectiveHostelId with
   | some h => e.hostelId == h
   | none => false) &&
  e.semesterId == semesterFilter &&
  (match startDate with
   | some d => decide (d ≤ e.expenseDate)
   | none => true) &&
  (match endDate with
   | some d => decide (e.expenseDate ≤ d)
   | none => true)

/-- The `GET /expenses/stats` handler. -/
def expenseStats (db : Db) (u : User) (q : ExpenseQuery) : Except Unit ExpenseStats :=
  match
    (if u.role = Role.SUPER_ADMIN then
      .ok (optTruthy q.hostelId)
     else
      match optTruthy u.hostelId with
      | none => Except.error ()
      | some h => Except.ok (some h) : Except Unit (Option Nat)) with
  | .error _ => .error ()
  | .ok effectiveHostelId =>
    let activeSemesterId :=
      match effectiveHostelId with
      | some h => activeSemesterFor db h
      | none => none
    let semesterFilter :=
      match optTruthy q.semesterId with
      | some s => some s
      | none => activeSemesterId
    match semesterFilter with
    | none => .ok { total := 0, byCategory := [] }
    | some semId =>
      let rows := db.expenses.filter
        (statsRowMatches effectiveHostelId semId q.startDate q.endDate)
      .ok
        { total := (rows.map (fun e => e.amount)).sum
          byCategory :=
            ((rows.map (fun e => e.category)).eraseDups).map (fun c =>
              (c, ((rows.filter (fun e => e.category == c)).map (fun e => e.amount)).sum)) }

/-- The financial core of an allocate response: status and allocation data,
with the notification-outcome fields (`emailSent`, `smsSent`, history ids)
erased. -/
def allocCore : Except AllocErr AllocOk → Except AllocErr (Nat × ℚ × Nat × ℚ)
  | .error e => .error e
  | .ok o => .ok (o.allocationId, o.totalRequired, o.roomCapacity, o.pricePerStudent)

/-- The financial core of a payment response: status and ledger data, with
the notification-outcome fields erased. -/
def payCore : Except PayErr PayOk → Except PayErr (Nat × Nat × ℚ × ℚ × ℚ)
  | .error e => .error e
  | .ok o => .ok (o.allocationId, o.paymentId, o.totalRequired, o.totalPaid, o.balance)

/-! ### Concrete fixtures used by witnesses and counterexamples -/

/-- Fixture room: id 20 in hostel 1, price 600000, capacity 2. -/
def wRoom : Room :=
  { id := 20, hostelId := 1, price := 600000, capacity := 2, isActive := true }

/-- Fixture student: id 10 in hostel 1, registered in semester 7. -/
def wStudent : Student :=
  { id := 10, hostelId := 1, semesterId := some 7, email := none, phone := none }

/-- Fixture caller: a custodian of hostel 1. -/
def wUser : User := { sub := 42, role := Role.CUSTODIAN, hostelId := some 1 }

/-- Fixture notification environment in which every provider throws. -/
def wEnv : NotifyEnv := { email := .thrown, sms := .thrown, receiptDataThrows := true }

/-- Fixture state: one room, one student, the markup feature enabled for
hostel 1, and no other rows. -/
def wDb : Db :=
  { rooms := [wRoom], students := [wStudent], semesters := []
    allocations := [], payments := [], checkIns := [], expenses := []
    featureSettings :=
      [{ hostelId := 1, featureName := "allow_custodian_price_markup",
         enabledForCustodian := true }]
    nextAllocationId := 1, nextPaymentId := 1, nextCheckInId := 1 }

/-- Fixture allocation: id 1 for student 10, snapshot price 100. -/
def wAlloc2 : Allocation :=
  { id := 1, hostelId := 1, semesterId := 7, studentId := 10, roomId := 20
    roomPriceAtAllocation := 100, displayPriceAtAllocation := none }

/-- Fixture state for payment boundaries: allocation 1 priced at 100 with a
payment of 60 recorded by user 42 at time 10. -/
def wDb2 : Db :=
  { rooms := [], students := [wStudent], semesters := []
    allocations := [wAlloc2]
    payments := [{ id := 1, allocationId := 1, semesterId := 7, amount := 60
                   recordedByUserId := 42, recordedAt := 10 }]
    checkIns := [], expenses := [], featureSettings := []
    nextAllocationId := 2, nextPaymentId := 2, nextCheckInId := 1 }

/-- Fixture state like `wDb2` but with only 30 of the 100 paid, so a repeat
of the same 30 still passes the balance check. -/
def wDb3 : Db :=
  { wDb2 with
    payments := [{ id := 1, allocationId := 1, semesterId := 7, amount := 30
                   recordedByUserId := 42, recordedAt := 10 }] }

/-- Fixture payment living in the active semester 9 of hostel 2. -/
def w8Payment : Payment :=
  { id := 1, allocationId := 5, semesterId := 9, amount := 10
    recordedByUserId := 3, recordedAt := 0 }

/-- Fixture state for the listing endpoints: hostel 2 has active semester 9
with one payment; hostel 1 has no semester at all. -/
def w8Db : Db :=
  { rooms := [], students := []
    semesters := [{ id := 9, hostelId := 2, isActive := true }]
    allocations := [{ id := 5, hostelId := 2, semesterId := 9, studentId := 11,
                      roomId := 3, roomPriceAtAllocation := 50,
                      displayPriceAtAllocation := none }]
    payments := [w8Payment], checkIns := [], expenses := [], featureSettings := []
    nextAllocationId := 6, nextPaymentId := 2, nextCheckInId := 1 }

/-- Fixture caller: a SUPER_ADMIN (not linked to any hostel). -/
def w8Admin : User := { sub := 1, role := Role.SUPER_ADMIN, hostelId := none }

/-- An expense query with no parameters set. -/
def emptyExpenseQuery : ExpenseQuery :=
  { hostelId := none, semesterId := none, startDate := none, endDate := none
    category := none, limit := none, offset := none }

/-- Plain allocate request for fixture student 10 into fixture room 20. -/
def wReqPlain : AllocateReq :=
  { studentId := 10, roomId := 20, hostelId := none, displayPrice := none }

/-- C4 fixture room: id 5 in hostel 1 with the given price and capacity. -/
def c4Room (n : Nat) (p : ℚ) : Room :=
  { id := 5, hostelId := 1, price := p, capacity := n, isActive := true }

/-- C4 fixture students: student `i` has id `i + 1`, lives in hostel 1 and is
registered in semester 7. -/
def c4Student (i : Nat) : Student :=
  { id := i + 1, hostelId := 1, semesterId := some 7, email := none, phone := none }

/-- The allocation row the `k`-th successful fixture call creates. -/
def c4Alloc (n : Nat) (p : ℚ) (i : Nat) : Allocation :=
  { id := i + 1, hostelId := 1, semesterId := 7, studentId := i + 1, roomId := 5
    roomPriceAtAllocation := pricePerStudentFn p (effCapacity (c4Room n p))
    displayPriceAtAllocation := none }

/-- C4 fixture state after `k` successful allocations of students 1..k into
room 5 (initially: `fillRoom n p 0`, the empty room). -/
def fillRoom (n : Nat) (p : ℚ) (k : Nat) : Db :=
  { rooms := [c4Room n p]
    students := (List.range (n + 1)).map c4Student
    semesters := []
    allocations := (List.range k).map (c4Alloc n p)
    payments := [], checkIns := [], expenses := [], featureSettings := []
    nextAllocationId := k + 1, nextPaymentId := 1, nextCheckInId := 1 }

/-- The allocate request of the `k`-th fixture call (student id `k + 1`). -/
def c4Req (k : Nat) : AllocateReq :=
  { studentId := k + 1, roomId := 5, hostelId := none, displayPrice := none }

/-- C10 fixture state: one capacity-1 room (id 5), two students (10 and 11)
of hostel 1 in semester 7, nothing else. -/
def c10Db0 : Db :=
  { rooms := [{ id := 5, hostelId := 1, price := 100, capacity := 1, isActive := true }]
    students := [wStudent,
      { id := 11, hostelId := 1, semesterId := some 7, email := none, phone := none }]
    semesters := [], allocations := [], payments := [], checkIns := [], expenses := []
    featureSettings := [], nextAllocationId := 1, nextPaymentId := 1, nextCheckInId := 1 }

/-- Request allocating student 10 into room 5. -/
def c10Req1 : AllocateReq :=
  { studentId := 10, roomId := 5, hostelId := none, displayPrice := none }

/-- Request allocating student 11 into room 5. -/
def c10Req2 : AllocateReq :=
  { studentId := 11, roomId := 5, hostelId := none, displayPrice := none }

/-- C10 fixture history: allocate student 10, check them in, check them out,
then allocate student 11 into the same capacity-1 room. -/
def c10Ops : List Op :=
  [ Op.allocateOp wUser c10Req1 wEnv
  , Op.checkInOp wUser 10 none 1
  , Op.checkOutOp wUser 10 none 2
  , Op.allocateOp wUser c10Req2 wEnv ]

/-- The state the C10 fixture history reaches. -/
def c10Final : Db := runOps c10Db0 c10Ops

/-! ### Well-formedness of a database state -/

/-- Room ids are unique (the `rooms` primary key). -/
def roomsWf (db : Db) : Prop :=
  db.rooms.Pairwise (fun r₁ r₂ => r₁.id ≠ r₂.id)

/-- Key uniqueness and auto-increment freshness facts that hold of every
state produced by the schema (primary keys are auto-increment columns). -/
def Wf (db : Db) : Prop :=
  db.rooms.Pairwise (fun r₁ r₂ => r₁.id ≠ r₂.id) ∧
  db.allocations.Pairwise (fun a₁ a₂ => a₁.id ≠ a₂.id) ∧
  (∀ a ∈ db.allocations, a.id < db.nextAllocationId)

/-- The no-overpayment invariant of the payment ledger: recorded payments
never sum above the price snapshot of their allocation. -/
def paymentsInvariant (db : Db) : Prop :=
  ∀ a ∈ db.allocations, allocTotalPaid db a.id ≤ a.roomPriceAtAllocation

/-- One allocation row per (student, semester). -/
def allocUnique (db : Db) : Prop :=
  db.allocations.Pairwise (fun a₁ a₂ =>
    ¬(a₁.studentId = a₂.studentId ∧ a₁.semesterId = a₂.semesterId))

/-- Counted occupancy never above (effective) capacity, for every room of
the state and every semester. -/
def occupancyInvariant (db : Db) : Prop :=
  ∀ r ∈ db.rooms, ∀ semesterId : Nat,
    countOccupied db r.id semesterId ≤ effCapacity r

/-! ### General-purpose list lemmas -/

theorem eq_of_mem_pairwiseKeys {α : Type} {key : α → Nat} :
    ∀ {l : List α}, l.Pairwise (fun x y => key x ≠ key y) →
      ∀ {a b : α}, a ∈ l → b ∈ l → key a = key b → a = b := by
  intro l
  induction l with
  | nil => intro _ a b ha; cases ha
  | cons x xs ih =>
    intro hp a b ha hb hk
    rcases List.pairwise_cons.mp hp with ⟨hx, hxs⟩
    rcases List.mem_cons.mp ha with rfl | ha777
    · rcases List.mem_cons.mp hb with rfl | hb777
      · rfl
      · exact absurd hk (hx b hb777)
    · rcases List.mem_cons.mp hb with rfl | hb777
      · exact absurd hk.symm (hx a ha777)
      · exact ih hxs ha777 hb777 hk

theorem length_filter_le_of_imp {α : Type} {p q : α → Bool} :
    ∀ (l : List α), (∀ a ∈ l, q a = true → p a = true) →
      (l.filter q).length ≤ (l.filter p).length := by
  intro l
  induction l with
  | nil => intro _; simp
  | cons x xs ih =>
    intro h
    have hxs := ih (fun a ha => h a (List.mem_cons_of_mem x ha))
    by_cases hq : q x = true
    · have hp := h x (List.mem_cons_self x xs) hq
      simp [List.filter_cons, hq, hp]
      omega
    · simp only [List.filter_cons, Bool.not_eq_true] at hq ⊢
      rw [hq]
      simp only [Bool.false_eq_true, if_false]
      by_cases hp : p x = true
      · simp [hp]; omega
      · simp only [Bool.not_eq_true] at hp
        rw [hp]
        simpa using hxs

theorem find?_append_of_none {α : Type} {p : α → Bool} {l₁ l₂ : List α}
    (h : l₁.find? p = none) : (l₁ ++ l₂).find? p = l₂.find? p := by
  rw [List.find?_append, h, Option.none_or]

/-! ### Sum-of-payments lemmas -/

theorem paymentsSum_append_single (ps : List Payment) (p : Payment) (aid : Nat) :
    paymentsSum (ps ++ [p]) aid =
      paymentsSum ps aid + (if p.allocationId = aid then p.amount else 0) := by
  by_cases h : p.allocationId = aid <;>
    simp [paymentsSum, List.filter_append, List.filter_cons, h]

theorem paymentsSum_nonneg_of (ps : List Payment) (aid : Nat)
    (h : ∀ p ∈ ps, 0 ≤ p.amount) : 0 ≤ paymentsSum ps aid := by
  apply List.sum_nonneg
  intro x hx
  rcases List.mem_map.mp hx with ⟨p, hp, rfl⟩
  exact h p (List.mem_filter.mp hp).1

/-! ### Occupancy-count lemmas -/

theorem occupiedCount_append_single (l : List Allocation) (cis : List CheckIn)
    (a : Allocation) (roomId semesterId : Nat) :
    occupiedCount (l ++ [a]) cis roomId semesterId =
      occupiedCount l cis roomId semesterId +
        (if a.roomId = roomId ∧ a.semesterId = semesterId ∧
            hasClosedCheckIn cis a.studentId a.semesterId = false then 1 else 0) := by
  by_cases h1 : a.roomId = roomId <;> by_cases h2 : a.semesterId = semesterId <;>
    by_cases h3 : hasClosedCheckIn cis a.studentId a.semesterId = false <;>
      simp_all [occupiedCount, List.filter_append, List.filter_cons]

theorem occupiedCount_le_of_sub (l : List Allocation) (cis : List CheckIn)
    (keep : Allocation → Bool) (roomId semesterId : Nat) :
    occupiedCount (l.filter keep) cis roomId semesterId ≤
      occupiedCount l cis roomId semesterId := by
  unfold occupiedCount
  exact ((List.filter_sublist l).filter _).length_le

theorem occupiedCount_le_of_closures (l : List Allocation) (cis cis' : List CheckIn)
    (roomId semesterId : Nat)
    (h : ∀ sid sem, hasClosedCheckIn cis sid sem = true →
      hasClosedCheckIn cis' sid sem = true) :
    occupiedCount l cis' roomId semesterId ≤ occupiedCount l cis roomId semesterId := by
  unfold occupiedCount
  apply length_filter_le_of_imp
  intro a _ hq
  simp only [Bool.and_eq_true, Bool.not_eq_true', beq_iff_eq] at hq ⊢
  refine ⟨⟨hq.1.1, hq.1.2⟩, ?_⟩
  by_cases hc : hasClosedCheckIn cis a.studentId a.semesterId = true
  · exact absurd (h _ _ hc) (by simp [hq.2])
  · simpa using hc

theorem occupiedCount_congr_checkIns (l : List Allocation) (cis cis' : List CheckIn)
    (roomId semesterId : Nat)
    (h : ∀ sid sem, hasClosedCheckIn cis' sid sem = hasClosedCheckIn cis sid sem) :
    occupiedCount l cis' roomId semesterId = occupiedCount l cis roomId semesterId := by
  unfold occupiedCount
  congr 1
  apply List.filter_congr
  intro a _
  rw [h]

theorem hasClosedCheckIn_append_open (cis : List CheckIn) (ci : CheckIn)
    (hopen : ci.checkedOutAt = none) (sid sem : Nat) :
    hasClosedCheckIn (cis ++ [ci]) sid sem = hasClosedCheckIn cis sid sem := by
  simp [hasClosedCheckIn, List.any_append, hopen]

theorem hasClosedCheckIn_map_close (cis : List CheckIn) (targetId : Nat) (t : ℚ)
    (uid : Nat) (sid sem : Nat)
    (h : hasClosedCheckIn cis sid sem = true) :
    hasClosedCheckIn
      (cis.map (fun c =>
        if c.id == targetId then
          { c with checkedOutAt := some t, checkedOutByUserId := some uid }
        else c)) sid sem = true := by
  simp only [hasClosedCheckIn, List.any_map, List.any_eq_true, Function.comp] at h ⊢
  rcases h with ⟨c, hc, hp⟩
  refine ⟨c, hc, ?_⟩
  simp only [Bool.and_eq_true, beq_iff_eq] at hp ⊢
  by_cases hid : c.id = targetId <;> simp [hid, hp.1.1, hp.1.2, hp.2]

/-! ### Handler state-shape lemmas -/

theorem recordPayment_db_cases (db : Db) (u : User) (aid : Nat) (amt now : ℚ)
    (env : NotifyEnv) :
    (recordPayment db u aid amt now env).2 = db ∨
      isPayOk (recordPayment db u aid amt now env) = true := by
  simp only [recordPayment]
  repeat' split
  all_goals simp [isPayOk]

theorem recordPayment_not_ok_state (db : Db) (u : User) (aid : Nat) (amt now : ℚ)
    (env : NotifyEnv) (h : isPayOk (recordPayment db u aid amt now env) = false) :
    (recordPayment db u aid amt now env).2 = db := by
  rcases recordPayment_db_cases db u aid amt now env with h2 | h2
  · exact h2
  · rw [h2] at h; cases h

theorem recordPayment_ok_inv (db : Db) (u : User) (aid : Nat) (amt now : ℚ)
    (env : NotifyEnv) (o : PayOk)
    (h : (recordPayment db u aid amt now env).1 = .ok o) :
    ∃ alloc,
      findAllocById db aid = some alloc ∧
      ¬(alloc.roomPriceAtAllocation - allocTotalPaid db aid ≤ 0) ∧
      ¬(alloc.roomPriceAtAllocation - allocTotalPaid db aid < amt) ∧
      (recordPayment db u aid amt now env).2 =
        { db with
          payments := db.payments ++
            [{ id := db.nextPaymentId, allocationId := aid,
               semesterId := alloc.semesterId, amount := amt,
               recordedByUserId := u.sub, recordedAt := now }]
          nextPaymentId := db.nextPaymentId + 1 } := by
  revert h
  simp only [recordPayment]
  repeat' split
  all_goals intro h
  all_goals simp_all

theorem allocate_db_cases (db : Db) (u : User) (req : AllocateReq) (env : NotifyEnv) :
    (allocate db u req env).2 = db ∨
      isAllocOk (allocate db u req env) = true := by
  simp only [allocate, allocate.allocInsert]
  repeat' split
  all_goals simp [isAllocOk]

theorem allocate_not_ok_state (db : Db) (u : User) (req : AllocateReq)
    (env : NotifyEnv) (h : isAllocOk (allocate db u req env) = false) :
    (allocate db u req env).2 = db := by
  rcases allocate_db_cases db u req env with h2 | h2
  · exact h2
  · rw [h2] at h; cases h

theorem allocate_ok_inv (db : Db) (u : User) (req : AllocateReq) (env : NotifyEnv)
    (o : AllocOk) (h : (allocate db u req env).1 = .ok o) :
    ∃ effH room student semId dpp,
      resolveHostel u req.hostelId = .ok effH ∧
      findRoom db req.roomId = some room ∧
      room.hostelId = effH ∧
      findStudent db req.studentId = some student ∧
      student.hostelId = effH ∧
      optTruthy student.semesterId = some semId ∧
      findAllocForStudent db req.studentId semId = none ∧
      countOccupied db req.roomId semId < effCapacity room ∧
      o.allocationId = db.nextAllocationId ∧
      o.pricePerStudent = pricePerStudentFn room.price (effCapacity room) ∧
      (allocate db u req env).2 =
        { db with
          allocations := db.allocations ++
            [{ id := db.nextAllocationId, hostelId := effH, semesterId := semId,
               studentId := req.studentId, roomId := room.id,
               roomPriceAtAllocation := pricePerStudentFn room.price (effCapacity room),
               displayPriceAtAllocation := dpp }]
          nextAllocationId := db.nextAllocationId + 1 } := by
  revert h
  simp only [allocate, allocate.allocInsert]
  repeat' split
  all_goals intro h
  all_goals simp_all
  all_goals (subst h; simp)

theorem deleteAllocation_db_cases (db : Db) (u : User) (aid : Nat) :
    (deleteAllocation db u aid).2 = db ∨
      (deleteAllocation db u aid).2 =
        { db with allocations := db.allocations.filter (fun a => !(a.id == aid)) } := by
  simp only [deleteAllocation]
  repeat' split
  all_goals simp

theorem checkInStudent_db_cases (db : Db) (u : User) (sid : Nat)
    (bh : Option Nat) (t : ℚ) :
    (checkInStudent db u sid bh t).2 = db ∨
      ∃ ci : CheckIn, ci.checkedOutAt = none ∧
        (checkInStudent db u sid bh t).2 =
          { db with checkIns := db.checkIns ++ [ci],
                    nextCheckInId := db.nextCheckInId + 1 } := by
  simp only [checkInStudent]
  repeat' split
  all_goals simp

theorem checkOutStudent_db_cases (db : Db) (u : User) (sid : Nat)
    (bh : Option Nat) (t : ℚ) :
    (checkOutStudent db u sid bh t).2 = db ∨
      ∃ targetId : Nat, (checkOutStudent db u sid bh t).2 =
        { db with checkIns := db.checkIns.map (fun c =>
            if c.id == targetId then
              { c with checkedOutAt := some t, checkedOutByUserId := some u.sub }
            else c) } := by
  simp only [checkOutStudent]
  repeat' split
  all_goals first
    | exact Or.inr ⟨_, rfl⟩
    | simp

/-! ### Evaluation lemmas for the allocate handler -/

section AllocateEval

variable {db : Db} {u : User} {req : AllocateReq}
  {effH : Nat} {room : Room} {student : Student} {semId : Nat}

theorem allocate_eval_ok (env : NotifyEnv)
    (hres : resolveHostel u req.hostelId = .ok effH)
    (hroom : findRoom db req.roomId = some room)
    (hrh : room.hostelId = effH)
    (hstud : findStudent db req.studentId = some student)
    (hsh : student.hostelId = effH)
    (hsem : optTruthy student.semesterId = some semId)
    (hnoalloc : findAllocForStudent db req.studentId semId = none)
    (hcap : countOccupied db req.roomId semId < effCapacity room)
    (hdp : req.displayPrice = none) :
    allocate db u req env =
      (.ok
        { allocationId := db.nextAllocationId
          totalRequired := pricePerStudentFn room.price (effCapacity room)
          roomCapacity := effCapacity room
          pricePerStudent := pricePerStudentFn room.price (effCapacity room)
          emailSent :=
            sentFlag (dispatchNotify env (strTruthy student.email) (strTruthy student.phone)).1
          emailHistoryId :=
            histId (dispatchNotify env (strTruthy student.email) (strTruthy student.phone)).1
          smsSent :=
            sentFlag (dispatchNotify env (strTruthy student.email) (strTruthy student.phone)).2
          smsHistoryId :=
            histId (dispatchNotify env (strTruthy student.email) (strTruthy student.phone)).2 },
       { db with
          allocations := db.allocations ++
            [{ id := db.nextAllocationId, hostelId := effH, semesterId := semId,
               studentId := req.studentId, roomId := room.id,
               roomPriceAtAllocation := pricePerStudentFn room.price (effCapacity room),
               displayPriceAtAllocation := none }]
          nextAllocationId := db.nextAllocationId + 1 }) := by
  simp only [allocate, allocate.allocInsert, hdp, hres, hroom, hstud, hsem, hnoalloc,
    hrh, hsh]
  simp [Nat.not_le.mpr hcap]

theorem allocate_eval_conflict_same (env : NotifyEnv)
    (hres : resolveHostel u req.hostelId = .ok effH)
    (hroom : findRoom db req.roomId = some room)
    (hrh : room.hostelId = effH)
    (hstud : findStudent db req.studentId = some student)
    (hsh : student.hostelId = effH)
    (hsem : optTruthy student.semesterId = some semId)
    {a0 : Allocation}
    (hfound : findAllocForStudent db req.studentId semId = some a0)
    (hsame : a0.roomId = req.roomId)
    (hjoi : (match req.displayPrice with
             | some dp => decide (dp < 1/100)
             | none => false) = false) :
    allocate db u req env = (.error .alreadyAllocatedSameRoom, db) := by
  simp only [allocate, hjoi, hres, hroom, hstud, hsem, hfound, hrh, hsh]
  simp [hsame]

theorem allocate_eval_conflict_other (env : NotifyEnv)
    (hres : resolveHostel u req.hostelId = .ok effH)
    (hroom : findRoom db req.roomId = some room)
    (hrh : room.hostelId = effH)
    (hstud : findStudent db req.studentId = some student)
    (hsh : student.hostelId = effH)
    (hsem : optTruthy student.semesterId = some semId)
    {a0 : Allocation}
    (hfound : findAllocForStudent db req.studentId semId = some a0)
    (hdiff : a0.roomId ≠ req.roomId)
    (hjoi : (match req.displayPrice with
             | some dp => decide (dp < 1/100)
             | none => false) = false) :
    allocate db u req env = (.error (.alreadyAllocatedOtherRoom a0.roomId), db) := by
  simp only [allocate, hjoi, hres, hroom, hstud, hsem, hfound, hrh, hsh]
  simp [hdiff]

theorem allocate_eval_full (env : NotifyEnv)
    (hres : resolveHostel u req.hostelId = .ok effH)
    (hroom : findRoom db req.roomId = some room)
    (hrh : room.hostelId = effH)
    (hstud : findStudent db req.studentId = some student)
    (hsh : student.hostelId = effH)
    (hsem : optTruthy student.semesterId = some semId)
    (hnoalloc : findAllocForStudent db req.studentId semId = none)
    (hcap : effCapacity room ≤ countOccupied db req.roomId semId)
    (hjoi : (match req.displayPrice with
             | some dp => decide (dp < 1/100)
             | none => false) = false) :
    allocate db u req env =
      (.error (.roomFull (countOccupied db req.roomId semId) (effCapacity room)), db) := by
  simp only [allocate, hjoi, hres, hroom, hstud, hsem, hnoalloc, hrh, hsh]
  simp [hcap]

theorem allocate_eval_display (env : NotifyEnv)
    (hres : resolveHostel u req.hostelId = .ok effH)
    (hroom : findRoom db req.roomId = some room)
    (hrh : room.hostelId = effH)
    (hstud : findStudent db req.studentId = some student)
    (hsh : student.hostelId = effH)
    (hsem : optTruthy student.semesterId = some semId)
    (hnoalloc : findAllocForStudent db req.studentId semId = none)
    (hcap : countOccupied db req.roomId semId < effCapacity room)
    {dp : ℚ} (hdp : req.displayPrice = some dp) (hdpmin : 1/100 ≤ dp) :
    allocate db u req env =
      (if isCustodianPriceMarkupEnabled db effH = false then
        (.error .displayPriceNeedsFeature, db)
      else if u.role ≠ Role.CUSTODIAN then
        (.error .displayPriceNeedsCustodian, db)
      else if pricePerStudentFn dp (effCapacity room) <
          pricePerStudentFn room.price (effCapacity room) then
        (.error .displayPriceBelowActual, db)
      else
        (.ok
          { allocationId := db.nextAllocationId
            totalRequired := pricePerStudentFn room.price (effCapacity room)
            roomCapacity := effCapacity room
            pricePerStudent := pricePerStudentFn room.price (effCapacity room)
            emailSent :=
              sentFlag (dispatchNotify env (strTruthy student.email) (strTruthy student.phone)).1
            emailHistoryId :=
              histId (dispatchNotify env (strTruthy student.email) (strTruthy student.phone)).1
            smsSent :=
              sentFlag (dispatchNotify env (strTruthy student.email) (strTruthy student.phone)).2
            smsHistoryId :=
              histId (dispatchNotify env (strTruthy student.email) (strTruthy student.phone)).2 },
         { db with
            allocations := db.allocations ++
              [{ id := db.nextAllocationId, hostelId := effH, semesterId := semId,
                 studentId := req.studentId, roomId := room.id,
                 roomPriceAtAllocation := pricePerStudentFn room.price (effCapacity room),
                 displayPriceAtAllocation :=
                   some (pricePerStudentFn dp (effCapacity room)) }]
            nextAllocationId := db.nextAllocationId + 1 })) := by
  simp only [allocate, allocate.allocInsert, hdp, hres, hroom, hstud, hsem, hnoalloc,
    hrh, hsh]
  have hj : (decide (dp < 1/100)) = false := decide_eq_false (not_lt.mpr hdpmin)
  simp only [hj]
  simp only [Bool.false_eq_true, if_false, Nat.not_le.mpr hcap]
  by_cases hm : isCustodianPriceMarkupEnabled db effH = false
  · simp [hm]
  · rw [Bool.not_eq_false] at hm
    by_cases hr : u.role = Role.CUSTODIAN
    · by_cases hlt : pricePerStudentFn dp (effCapacity room) <
          pricePerStudentFn room.price (effCapacity room)
      · simp [hm, hr, hlt]
      · simp [hm, hr, hlt, not_lt.mp hlt]
    · simp [hm, hr]

end AllocateEval

/-! ### Evaluation lemma for the payment handler -/

theorem recordPayment_eval (db : Db) (u : User) (aid : Nat) (amount now : ℚ)
    (env : NotifyEnv) {alloc : Allocation}
    (halloc : findAllocById db aid = some alloc)
    (hscope : payScopeCheck u alloc.hostelId = none)
    (hamt : 1/100 ≤ amount) :
    recordPayment db u aid amount now env =
      (if alloc.roomPriceAtAllocation - allocTotalPaid db aid ≤ 0 then
        (.error .alreadyFullyPaid, db)
      else if alloc.roomPriceAtAllocation - allocTotalPaid db aid < amount then
        (.error (.exceedsBalance amount
          (alloc.roomPriceAtAllocation - allocTotalPaid db aid)), db)
      else
        match findRecentDuplicate db.payments aid amount u.sub now with
        | some recent => (.error (.duplicateRecent recent.id), db)
        | none =>
          let db1 : Db :=
            { db with
              payments := db.payments ++
                [{ id := db.nextPaymentId, allocationId := aid,
                   semesterId := alloc.semesterId, amount := amount,
                   recordedByUserId := u.sub, recordedAt := now }]
              nextPaymentId := db.nextPaymentId + 1 }
          (.ok
            { allocationId := aid
              paymentId := db.nextPaymentId
              totalRequired := alloc.roomPriceAtAllocation
              totalPaid := allocTotalPaid db1 aid
              balance := alloc.roomPriceAtAllocation - allocTotalPaid db1 aid
              receiptSent :=
                sentFlag (receiptDispatch env db1 aid).1 ||
                  sentFlag (receiptDispatch env db1 aid).2
              emailSent := sentFlag (receiptDispatch env db1 aid).1
              emailHistoryId := histId (receiptDispatch env db1 aid).1
              smsSent := sentFlag (receiptDispatch env db1 aid).2
              smsHistoryId := histId (receiptDispatch env db1 aid).2 }, db1)) := by
  simp only [recordPayment, halloc, hscope, if_neg (not_lt.mpr hamt)]

/-! ## Claim theorems -/

/-- C5: the price snapshotted at allocation equals the room price when the
capacity is 1 and `price / capacity` exactly (rational arithmetic) when it is
larger; it is the same function of the room row alone, so every student
allocated to a given room receives the same snapshot regardless of the
occupancy or any other state at allocation time. -/
theorem c5_price_per_student :
    (∀ (p : ℚ) (c : Nat), 1 ≤ c → pricePerStudentFn p c = p / (c : ℚ)) ∧
    (∀ p : ℚ, pricePerStudentFn p 1 = p) ∧
    (∀ (db : Db) (u : User) (req : AllocateReq) (env : NotifyEnv) (o : AllocOk)
        (room : Room),
      (allocate db u req env).1 = .ok o →
      findRoom db req.roomId = some room →
      o.pricePerStudent = pricePerStudentFn room.price (effCapacity room) ∧
      ∃ a : Allocation,
        (allocate db u req env).2.allocations = db.allocations ++ [a] ∧
        a.roomPriceAtAllocation = pricePerStudentFn room.price (effCapacity room)) ∧
    (∀ (db₁ db₂ : Db) (u₁ u₂ : User) (req₁ req₂ : AllocateReq)
        (env₁ env₂ : NotifyEnv) (o₁ o₂ : AllocOk) (room : Room),
      (allocate db₁ u₁ req₁ env₁).1 = .ok o₁ →
      (allocate db₂ u₂ req₂ env₂).1 = .ok o₂ →
      findRoom db₁ req₁.roomId = some room →
      findRoom db₂ req₂.roomId = some room →
      o₁.pricePerStudent = o₂.pricePerStudent) := by
  have hsnap : ∀ (db : Db) (u : User) (req : AllocateReq) (env : NotifyEnv) (o : AllocOk)
      (room : Room),
      (allocate db u req env).1 = .ok o →
      findRoom db req.roomId = some room →
      o.pricePerStudent = pricePerStudentFn room.price (effCapacity room) ∧
      ∃ a : Allocation,
        (allocate db u req env).2.allocations = db.allocations ++ [a] ∧
        a.roomPriceAtAllocation = pricePerStudentFn room.price (effCapacity room) := by
    intro db u req env o room hok hroom
    rcases allocate_ok_inv db u req env o hok with
      ⟨effH, room2, student, semId, dpp, _, hroom2, _, _, _, _, _, _, _, hpps, hdb⟩
    rw [hroom] at hroom2
    cases hroom2
    refine ⟨hpps,
      ⟨{ id := db.nextAllocationId, hostelId := effH, semesterId := semId,
         studentId := req.studentId, roomId := room.id,
         roomPriceAtAllocation := pricePerStudentFn room.price (effCapacity room),
         displayPriceAtAllocation := dpp }, ?_, rfl⟩⟩
    rw [hdb]
  refine ⟨?_, ?_, hsnap, ?_⟩
  · intro p c hc
    unfold pricePerStudentFn
    by_cases h1 : c = 1
    · subst h1; simp
    · simp [h1]
  · intro p; simp [pricePerStudentFn]
  · intro db₁ db₂ u₁ u₂ req₁ req₂ env₁ env₂ o₁ o₂ room h₁ h₂ hr₁ hr₂
    rw [(hsnap db₁ u₁ req₁ env₁ o₁ room h₁ hr₁).1,
        (hsnap db₂ u₂ req₂ env₂ o₂ room h₂ hr₂).1]

/-- C5 witness: a concrete successful allocation into a 600000-price,
capacity-2 room snapshots exactly 300000 for the student. -/
theorem c5_price_per_student_witness :
    pricePerStudentFn 600000 2 = 600000 / 2 ∧ pricePerStudentFn 600000 2 = 300000 := by
  constructor
  · exact c5_price_per_student.1 600000 2 (by norm_num)
  · rw [c5_price_per_student.1 600000 2 (by norm_num)]
    norm_num

/-- C7: when a display price is supplied, allocation fails with a
ValidationError (400) if the custodian-price-markup flag of the hostel is off,
fails with Forbidden (403) if the flag is on but the caller is not a
CUSTODIAN, fails with a ValidationError (400) whenever the computed
display price per student undercuts the computed price per student, and an
equal display price per student is accepted. -/
theorem c7_display_price_guard (db : Db) (u : User) (req : AllocateReq)
    (env : NotifyEnv) (effH : Nat) (room : Room) (student : Student) (semId : Nat)
    (dp : ℚ)
    (hres : resolveHostel u req.hostelId = .ok effH)
    (hroom : findRoom db req.roomId = some room)
    (hrh : room.hostelId = effH)
    (hstud : findStudent db req.studentId = some student)
    (hsh : student.hostelId = effH)
    (hsem : optTruthy student.semesterId = some semId)
    (hnoalloc : findAllocForStudent db req.studentId semId = none)
    (hcap : countOccupied db req.roomId semId < effCapacity room)
    (hdp : req.displayPrice = some dp) (hdpmin : 1/100 ≤ dp) :
    (isCustodianPriceMarkupEnabled db effH = false →
      (allocate db u req env).1 = .error .displayPriceNeedsFeature ∧
      AllocErr.status .displayPriceNeedsFeature = 400) ∧
    (isCustodianPriceMarkupEnabled db effH = true → u.role ≠ Role.CUSTODIAN →
      (allocate db u req env).1 = .error .displayPriceNeedsCustodian ∧
      AllocErr.status .displayPriceNeedsCustodian = 403) ∧
    (isCustodianPriceMarkupEnabled db effH = true → u.role = Role.CUSTODIAN →
      pricePerStudentFn dp (effCapacity room) <
        pricePerStudentFn room.price (effCapacity room) →
      (allocate db u req env).1 = .error .displayPriceBelowActual ∧
      AllocErr.status .displayPriceBelowActual = 400) ∧
    (isCustodianPriceMarkupEnabled db effH = true → u.role = Role.CUSTODIAN →
      pricePerStudentFn dp (effCapacity room) =
        pricePerStudentFn room.price (effCapacity room) →
      isAllocOk (allocate db u req env) = true) := by
  rw [show (allocate db u req env) = _ from
    allocate_eval_display env hres hroom hrh hstud hsh hsem hnoalloc hcap hdp hdpmin]
  refine ⟨?_, ?_, ?_, ?_⟩
  · intro hm; simp [hm, AllocErr.status]
  · intro hm hr; simp [hm, hr, AllocErr.status]
  · intro hm hr hlt; simp [hm, hr, hlt, AllocErr.status]
  · intro hm hr heq; simp [hm, hr, heq, isAllocOk, le_refl, lt_irrefl]

/-- C7 witness: for the concrete fixture with the markup flag on, a
display price of 500000 set by the custodian (below the 600000 room price) is
rejected as a ValidationError, instantiating the third conjunct. -/
theorem c7_display_price_guard_witness :
    (allocate wDb wUser
        { studentId := 10, roomId := 20, hostelId := none, displayPrice := some 500000 }
        wEnv).1 = .error .displayPriceBelowActual ∧
    AllocErr.status .displayPriceBelowActual = 400 :=
  (c7_display_price_guard wDb wUser
      { studentId := 10, roomId := 20, hostelId := none, displayPrice := some 500000 }
      wEnv 1 wRoom wStudent 7 500000
      (by decide) (by decide) (by decide) (by decide) (by decide) (by decide)
      (by decide) (by decide) (by decide) (by norm_num)).2.2.1
    (by decide) (by decide)
    (by unfold pricePerStudentFn effCapacity wRoom; norm_num)

/-- C2: with `bal` the snapshot price minus the recorded payments of the
allocation, recordPayment fails with a ValidationError (400) when `bal ≤ 0`
(already fully paid); fails with a ValidationError reporting `bal` as the
maximum allowed when the amount exceeds `bal`; succeeds with a post-insert
balance of exactly 0 when the amount equals `bal` (absent a recent duplicate);
and fails with the same ValidationError when the amount is `bal + 0.01`. -/
theorem c2_overpayment_boundary (db : Db) (u : User) (aid : Nat) (amount now : ℚ)
    (env : NotifyEnv) (alloc : Allocation)
    (halloc : findAllocById db aid = some alloc)
    (hscope : payScopeCheck u alloc.hostelId = none)
    (hamt : 1/100 ≤ amount) :
    (alloc.roomPriceAtAllocation - allocTotalPaid db aid ≤ 0 →
      recordPayment db u aid amount now env = (.error .alreadyFullyPaid, db) ∧
      PayErr.status .alreadyFullyPaid = 400) ∧
    (0 < alloc.roomPriceAtAllocation - allocTotalPaid db aid →
      alloc.roomPriceAtAllocation - allocTotalPaid db aid < amount →
      recordPayment db u aid amount now env =
        (.error (.exceedsBalance amount
          (alloc.roomPriceAtAllocation - allocTotalPaid db aid)), db) ∧
      PayErr.status (.exceedsBalance amount
        (alloc.roomPriceAtAllocation - allocTotalPaid db aid)) = 400) ∧
    (0 < alloc.roomPriceAtAllocation - allocTotalPaid db aid →
      amount = alloc.roomPriceAtAllocation - allocTotalPaid db aid →
      findRecentDuplicate db.payments aid amount u.sub now = none →
      ∃ o : PayOk, (recordPayment db u aid amount now env).1 = .ok o ∧
        o.balance = 0 ∧ o.totalPaid = alloc.roomPriceAtAllocation ∧
        o.totalRequired = alloc.roomPriceAtAllocation ∧
        o.allocationId = aid ∧ o.paymentId = db.nextPaymentId) := by
  rw [recordPayment_eval db u aid amount now env halloc hscope hamt]
  refine ⟨?_, ?_, ?_⟩
  · intro hbal
    simp [hbal, PayErr.status]
  · intro hpos hexceeds
    rw [if_neg (not_le.mpr hpos), if_pos hexceeds]
    simp [PayErr.status]
  · intro hpos hfull hdup
    rw [if_neg (not_le.mpr hpos), if_neg (not_lt.mpr (le_of_eq hfull)), hdup]
    have hsum : allocTotalPaid
        { db with
          payments := db.payments ++
            [{ id := db.nextPaymentId, allocationId := aid,
               semesterId := alloc.semesterId, amount := amount,
               recordedByUserId := u.sub, recordedAt := now }]
          nextPaymentId := db.nextPaymentId + 1 } aid
        = allocTotalPaid db aid + amount := by
      rw [allocTotalPaid, allocTotalPaid, paymentsSum_append_single]
      simp
    dsimp only
    refine ⟨_, rfl, ?_, ?_, rfl, rfl, rfl⟩
    · show alloc.roomPriceAtAllocation - allocTotalPaid _ aid = 0
      rw [hsum, hfull]; ring
    · show allocTotalPaid _ aid = alloc.roomPriceAtAllocation
      rw [hsum, hfull]; ring

/-- C2 witness: on a price-100 allocation with 60 already paid (balance 40),
paying 50 is rejected reporting a 40 maximum, paying exactly 40 succeeds with
balance 0, and paying 40.01 is rejected. -/
theorem c2_overpayment_boundary_witness :
    ((recordPayment wDb2 wUser 1 50 20 wEnv).1 =
      .error (.exceedsBalance 50 40)) ∧
    (isPayOk (recordPayment wDb2 wUser 1 40 20 wEnv) = true ∧
      payCore (recordPayment wDb2 wUser 1 40 20 wEnv).1 = .ok (1, 2, 100, 100, 0)) ∧
    ((recordPayment wDb2 wUser 1 (40 + 1/100) 20 wEnv).1 =
      .error (.exceedsBalance (40 + 1/100) 40)) := by
  have hb : (100 : ℚ) - allocTotalPaid wDb2 1 = 40 := by
    unfold wDb2 allocTotalPaid paymentsSum
    norm_num [List.filter, List.sum]
  have halloc : findAllocById wDb2 1 = some wAlloc2 := by decide
  have hprice : wAlloc2.roomPriceAtAllocation = 100 := by norm_num [wAlloc2]
  have hscope : payScopeCheck wUser wAlloc2.hostelId = none := by decide
  refine ⟨?_, ?_, ?_⟩
  · have h := (c2_overpayment_boundary wDb2 wUser 1 50 20 wEnv wAlloc2 halloc hscope
      (by norm_num)).2.1 (by rw [hprice, hb]; norm_num) (by rw [hprice, hb]; norm_num)
    rw [hprice, hb] at h
    rw [h.1]
  · have h := (c2_overpayment_boundary wDb2 wUser 1 40 20 wEnv wAlloc2 halloc hscope
      (by norm_num)).2.2 (by rw [hprice, hb]; norm_num) (by rw [hprice, hb])
      (by decide)
    rcases h with ⟨o, ho, hbal, htot, htotreq, hallocid, hpid⟩
    constructor
    · rcases hrp : recordPayment wDb2 wUser 1 40 20 wEnv with ⟨r1, d⟩
      rw [hrp] at ho
      simp only at ho
      subst ho
      rfl
    · rw [ho]
      rw [payCore]
      rw [hallocid, hpid, htotreq, htot, hbal, hprice]
      rfl
  · have h := (c2_overpayment_boundary wDb2 wUser 1 (40 + 1/100) 20 wEnv wAlloc2 halloc
      hscope (by norm_num)).2.1 (by rw [hprice, hb]; norm_num)
      (by rw [hprice, hb]; norm_num)
    rw [hprice, hb] at h
    rw [h.1]

/-- Helper for C6: a successful payment insert implies the duplicate lookup
found nothing. -/
theorem recordPayment_ok_no_dup (db : Db) (u : User) (aid : Nat) (amt now : ℚ)
    (env : NotifyEnv) (o : PayOk)
    (h : (recordPayment db u aid amt now env).1 = .ok o) :
    findRecentDuplicate db.payments aid amt u.sub now = none := by
  revert h
  simp only [recordPayment]
  repeat' split
  all_goals intro h
  all_goals simp_all

/-- C6 counterexample: on a price-100 allocation where user 42 recorded a
payment of 60 at time 10, repeating the identical call one second later does
NOT fail with Conflict: the overpayment check fires first, so it fails with
the ValidationError `exceedsBalance` (status 400, not 409) — even though a
same-triple payment within the 5-second window exists. -/
theorem c6_duplicate_debounce_counterexample :
    findRecentDuplicate wDb2.payments 1 60 42 11 =
      some { id := 1, allocationId := 1, semesterId := 7, amount := 60,
             recordedByUserId := 42, recordedAt := 10 } ∧
    recordPayment wDb2 wUser 1 60 11 wEnv = (.error (.exceedsBalance 60 40), wDb2) ∧
    PayErr.status (.exceedsBalance 60 40) = 400 ∧
    PayErr.status (.duplicateRecent 1) = 409 := by
  refine ⟨?_, ?_, rfl, rfl⟩
  · norm_num [findRecentDuplicate, List.find?, wDb2]
  · norm_num [recordPayment, findAllocById, payScopeCheck, optTruthy,
      isCustodianPriceMarkupEnabled, allocTotalPaid, paymentsSum, findRecentDuplicate,
      receiptDispatch, wDb2, wAlloc2, wUser, wEnv, List.find?, List.filter, List.map,
      List.sum]

/-- Helper for C6: the mere presence of a same-triple payment inside the
5-second window forces the call to fail, leaving the state untouched. -/
theorem recordPayment_dup_blocks (db : Db) (u : User) (aid : Nat) (amount now : ℚ)
    (env : NotifyEnv) (p : Payment) (hmem : p ∈ db.payments)
    (h1 : p.allocationId = aid) (h2 : p.amount = amount)
    (h3 : p.recordedByUserId = u.sub) (h4 : now - 5 ≤ p.recordedAt) :
    isPayOk (recordPayment db u aid amount now env) = false ∧
    (recordPayment db u aid amount now env).2 = db := by
  have hnotok : isPayOk (recordPayment db u aid amount now env) = false := by
    by_contra hok
    rw [Bool.not_eq_false] at hok
    have hex : ∃ o, (recordPayment db u aid amount now env).1 = .ok o := by
      rcases hr : recordPayment db u aid amount now env with ⟨r, db1⟩
      cases r with
      | ok o => exact ⟨o, by simp [hr]⟩
      | error e => rw [hr] at hok; simp [isPayOk] at hok
    rcases hex with ⟨o, ho⟩
    have hnone := recordPayment_ok_no_dup db u aid amount now env o ho
    rw [findRecentDuplicate, List.find?_eq_none] at hnone
    exact hnone p hmem (by simp [h1, h2, h3, h4])
  exact ⟨hnotok, recordPayment_not_ok_state db u aid amount now env hnotok⟩

/-- C6 (amended): when a payment with the same (allocation, amount, actor)
was recorded within the last 5 seconds, a repeated recordPayment call never
inserts a row — it fails with Conflict (409) returning the id of the existing payment provided the amount still passes the balance check, and with a
ValidationError otherwise; in particular, after any successful call, an
identical call within 5 seconds fails and leaves the state unchanged, so the
two calls together persist exactly one payment row. -/
theorem c6_duplicate_debounce (db : Db) (u : User) (aid : Nat) (amount now : ℚ)
    (env : NotifyEnv) :
    (∀ (alloc : Allocation) (prev : Payment),
      findAllocById db aid = some alloc →
      payScopeCheck u alloc.hostelId = none →
      1/100 ≤ amount →
      findRecentDuplicate db.payments aid amount u.sub now = some prev →
      0 < alloc.roomPriceAtAllocation - allocTotalPaid db aid →
      amount ≤ alloc.roomPriceAtAllocation - allocTotalPaid db aid →
      recordPayment db u aid amount now env = (.error (.duplicateRecent prev.id), db) ∧
      PayErr.status (.duplicateRecent prev.id) = 409) ∧
    (∀ p : Payment, p ∈ db.payments →
      p.allocationId = aid → p.amount = amount → p.recordedByUserId = u.sub →
      now - 5 ≤ p.recordedAt →
      isPayOk (recordPayment db u aid amount now env) = false ∧
      (recordPayment db u aid amount now env).2 = db) ∧
    (∀ (o : PayOk) (now' : ℚ) (env' : NotifyEnv),
      (recordPayment db u aid amount now env).1 = .ok o →
      now' - 5 ≤ now →
      isPayOk (recordPayment (recordPayment db u aid amount now env).2
          u aid amount now' env') = false ∧
      (recordPayment (recordPayment db u aid amount now env).2
          u aid amount now' env').2 = (recordPayment db u aid amount now env).2) := by
  refine ⟨?_, fun p a b c d e => recordPayment_dup_blocks db u aid amount now env p a b c d e, ?_⟩
  · intro alloc prev halloc hscope hamt hdup hpos hle
    rw [recordPayment_eval db u aid amount now env halloc hscope hamt]
    rw [if_neg (not_le.mpr hpos), if_neg (not_lt.mpr hle), hdup]
    exact ⟨rfl, rfl⟩
  · intro o now' env' hok hwin
    rcases recordPayment_ok_inv db u aid amount now env o hok with
      ⟨alloc, halloc, hb1, hb2, hdb⟩
    refine recordPayment_dup_blocks _ u aid amount now' env'
      { id := db.nextPaymentId, allocationId := aid, semesterId := alloc.semesterId,
        amount := amount, recordedByUserId := u.sub, recordedAt := now }
      ?_ rfl rfl rfl hwin
    rw [hdb]
    simp

/-- C6 witness: with 30 of 100 paid at time 10, repeating the same call at
time 11 fails with Conflict 409 referencing payment id 1 and inserts
nothing. -/
theorem c6_duplicate_debounce_witness :
    recordPayment wDb3 wUser 1 30 11 wEnv = (.error (.duplicateRecent 1), wDb3) ∧
    PayErr.status (.duplicateRecent 1) = 409 :=
  (c6_duplicate_debounce wDb3 wUser 1 30 11 wEnv).1 wAlloc2
    { id := 1, allocationId := 1, semesterId := 7, amount := 30,
      recordedByUserId := 42, recordedAt := 10 }
    (by decide) (by decide) (by norm_num)
    (by norm_num [findRecentDuplicate, List.find?, wDb3, wDb2, wUser])
    (by norm_num [wAlloc2, allocTotalPaid, paymentsSum, wDb3, wDb2, List.filter,
      List.map, List.sum])
    (by norm_num [wAlloc2, allocTotalPaid, paymentsSum, wDb3, wDb2, List.filter,
      List.map, List.sum])

/-- Helper: a payment response that is not a 201 carries a successful
variant. -/
theorem isPayOk_exists {r : Except PayErr PayOk × Db} (h : isPayOk r = true) :
    ∃ o, r.1 = .ok o := by
  rcases r with ⟨r1, d⟩
  cases r1 with
  | ok o => exact ⟨o, rfl⟩
  | error e => simp [isPayOk] at h

/-- Helper: recordPayment never touches the allocations table. -/
theorem recordPayment_allocations (db : Db) (u : User) (aid : Nat) (amt now : ℚ)
    (env : NotifyEnv) :
    (recordPayment db u aid amt now env).2.allocations = db.allocations := by
  by_cases h : isPayOk (recordPayment db u aid amt now env) = true
  · rcases isPayOk_exists h with ⟨o, ho⟩
    rcases recordPayment_ok_inv db u aid amt now env o ho with ⟨_, _, _, _, hdb⟩
    rw [hdb]
  · rw [recordPayment_not_ok_state db u aid amt now env (by simpa using h)]

/-- Helper: one recordPayment call preserves the no-overpayment invariant
(given unique allocation ids). -/
theorem recordPayment_preserves_invariant (db : Db) (u : User) (aid : Nat)
    (amt now : ℚ) (env : NotifyEnv)
    (hpw : db.allocations.Pairwise (fun a b => a.id ≠ b.id))
    (hinv : paymentsInvariant db) :
    paymentsInvariant (recordPayment db u aid amt now env).2 := by
  by_cases h : isPayOk (recordPayment db u aid amt now env) = true
  · rcases isPayOk_exists h with ⟨o, ho⟩
    rcases recordPayment_ok_inv db u aid amt now env o ho with
      ⟨alloc, halloc, hb1, hb2, hdb⟩
    have hallocmem : alloc ∈ db.allocations :=
      List.mem_of_find?_eq_some halloc
    have hallocid : alloc.id = aid := by
      have := List.find?_some halloc
      simpa using this
    intro a hmem
    rw [hdb] at hmem ⊢
    simp only at hmem
    rw [allocTotalPaid]
    simp only
    rw [paymentsSum_append_single]
    by_cases hid : aid = a.id
    · have haeq : a = alloc :=
        eq_of_mem_pairwiseKeys hpw hmem hallocmem (by rw [hallocid, hid])
      have hle : amt ≤ alloc.roomPriceAtAllocation - allocTotalPaid db aid :=
        not_lt.mp hb2
      rw [if_pos (by simpa using hid), haeq, hallocid]
      rw [allocTotalPaid] at hle
      show paymentsSum db.payments aid + amt ≤ alloc.roomPriceAtAllocation
      linarith
    · rw [if_neg (by simpa using hid)]
      simpa [allocTotalPaid] using hinv a hmem
  · rw [recordPayment_not_ok_state db u aid amt now env (by simpa using h)]
    exact hinv

/-- C1: starting from any state with unique allocation ids in which, for every
allocation, the recorded payments sum to at most the snapshot price, every
sequential history of recordPayment calls preserves that invariant
(`SUM(payments.amount) ≤ room_price_at_allocation`, the actual price);
moreover any call whose amount would push the sum of its allocation above the
snapshot price is rejected, and every rejected call leaves the database —
hence the payments table — unchanged. -/
theorem c1_payment_ceiling (db : Db) (calls : List PayCall)
    (hpw : db.allocations.Pairwise (fun a b => a.id ≠ b.id))
    (hinv : paymentsInvariant db) :
    paymentsInvariant (applyPayCalls db calls) ∧
    (∀ (u : User) (aid : Nat) (amt now : ℚ) (env : NotifyEnv) (alloc : Allocation),
      findAllocById (applyPayCalls db calls) aid = some alloc →
      alloc.roomPriceAtAllocation <
        allocTotalPaid (applyPayCalls db calls) aid + amt →
      isPayOk (recordPayment (applyPayCalls db calls) u aid amt now env) = false) ∧
    (∀ (u : User) (aid : Nat) (amt now : ℚ) (env : NotifyEnv),
      isPayOk (recordPayment (applyPayCalls db calls) u aid amt now env) = false →
      (recordPayment (applyPayCalls db calls) u aid amt now env).2 =
        applyPayCalls db calls) := by
  have hfold : ∀ (cs : List PayCall) (d : Db),
      d.allocations.Pairwise (fun a b => a.id ≠ b.id) → paymentsInvariant d →
      (applyPayCalls d cs).allocations.Pairwise (fun a b => a.id ≠ b.id) ∧
      paymentsInvariant (applyPayCalls d cs) := by
    intro cs
    induction cs with
    | nil => intro d h1 h2; exact ⟨h1, h2⟩
    | cons c cs ih =>
      intro d h1 h2
      have hstep1 :
          ((recordPayment d c.u c.allocationId c.amount c.now c.env).2).allocations.Pairwise
            (fun a b => a.id ≠ b.id) := by
        rw [recordPayment_allocations]; exact h1
      have hstep2 := recordPayment_preserves_invariant d c.u c.allocationId c.amount
        c.now c.env h1 h2
      exact ih _ hstep1 hstep2
  rcases hfold calls db hpw hinv with ⟨hpw2, hinv2⟩
  refine ⟨hinv2, ?_, ?_⟩
  · intro u aid amt now env alloc halloc hover
    by_contra hok
    rw [Bool.not_eq_false] at hok
    rcases isPayOk_exists hok with ⟨o, ho⟩
    rcases recordPayment_ok_inv _ u aid amt now env o ho with
      ⟨alloc2, halloc2, hb1, hb2, _⟩
    rw [halloc] at halloc2
    cases halloc2
    have := not_lt.mp hb2
    linarith
  · intro u aid amt now env h
    exact recordPayment_not_ok_state _ u aid amt now env h

/-- C1 witness: from the fixture state with 60 of 100 paid (which satisfies
the invariant), a further call for 50 is rejected and changes nothing, and an
empty history trivially preserves the invariant. -/
theorem c1_payment_ceiling_witness :
    paymentsInvariant (applyPayCalls wDb2 []) ∧
    isPayOk (recordPayment (applyPayCalls wDb2 []) wUser 1 50 20 wEnv) = false := by
  have hpw : wDb2.allocations.Pairwise (fun a b => a.id ≠ b.id) := by
    simp [wDb2]
  have hinv : paymentsInvariant wDb2 := by
    intro a hmem
    simp only [wDb2, List.mem_singleton] at hmem
    subst hmem
    norm_num [allocTotalPaid, paymentsSum, wDb2, wAlloc2, List.filter, List.map,
      List.sum]
  have h := c1_payment_ceiling wDb2 [] hpw hinv
  refine ⟨h.1, ?_⟩
  apply h.2.1 wUser 1 50 20 wEnv wAlloc2
  · decide
  · norm_num [allocTotalPaid, paymentsSum, applyPayCalls, wDb2, wAlloc2, List.filter,
      List.map, List.sum, List.foldl]

/-- C9: the notification environment — which fixes the outcome, including
thrown exceptions, of every email/SMS attempt and of the receipt-data
lookup — has no effect on the persisted state of an allocate or
recordPayment call, nor on its status and financial response fields; it can
only change the reported `emailSent`/`smsSent` booleans and history ids.  In
particular a successful financial write stays a success under any
notification failure. -/
theorem c9_notification_independence :
    (∀ (db : Db) (u : User) (req : AllocateReq) (env env' : NotifyEnv),
      (allocate db u req env).2 = (allocate db u req env').2 ∧
      allocCore (allocate db u req env).1 = allocCore (allocate db u req env').1) ∧
    (∀ (db : Db) (u : User) (aid : Nat) (amt now : ℚ) (env env' : NotifyEnv),
      (recordPayment db u aid amt now env).2 = (recordPayment db u aid amt now env').2 ∧
      payCore (recordPayment db u aid amt now env).1 =
        payCore (recordPayment db u aid amt now env').1) := by
  constructor
  · intro db u req env env'
    simp only [allocate, allocate.allocInsert]
    repeat' split
    all_goals simp [allocCore]
  · intro db u aid amt now env env'
    simp only [recordPayment]
    repeat' split
    all_goals simp [payCore]

/-! ### Frame lemmas: which tables each handler can touch -/

theorem allocate_frame (db : Db) (u : User) (req : AllocateReq) (env : NotifyEnv) :
    (allocate db u req env).2.rooms = db.rooms ∧
    (allocate db u req env).2.students = db.students ∧
    (allocate db u req env).2.checkIns = db.checkIns ∧
    (allocate db u req env).2.payments = db.payments := by
  simp only [allocate, allocate.allocInsert]
  repeat' split
  all_goals simp

theorem recordPayment_frame (db : Db) (u : User) (aid : Nat) (amt now : ℚ)
    (env : NotifyEnv) :
    (recordPayment db u aid amt now env).2.rooms = db.rooms ∧
    (recordPayment db u aid amt now env).2.allocations = db.allocations ∧
    (recordPayment db u aid amt now env).2.checkIns = db.checkIns := by
  simp only [recordPayment]
  repeat' split
  all_goals simp

theorem deleteAllocation_frame (db : Db) (u : User) (aid : Nat) :
    (deleteAllocation db u aid).2.rooms = db.rooms ∧
    (deleteAllocation db u aid).2.checkIns = db.checkIns ∧
    (deleteAllocation db u aid).2.payments = db.payments := by
  simp only [deleteAllocation]
  repeat' split
  all_goals simp

theorem checkInStudent_frame (db : Db) (u : User) (sid : Nat) (bh : Option Nat)
    (t : ℚ) :
    (checkInStudent db u sid bh t).2.rooms = db.rooms ∧
    (checkInStudent db u sid bh t).2.allocations = db.allocations ∧
    (checkInStudent db u sid bh t).2.payments = db.payments := by
  simp only [checkInStudent]
  repeat' split
  all_goals simp

theorem checkOutStudent_frame (db : Db) (u : User) (sid : Nat) (bh : Option Nat)
    (t : ℚ) :
    (checkOutStudent db u sid bh t).2.rooms = db.rooms ∧
    (checkOutStudent db u sid bh t).2.allocations = db.allocations ∧
    (checkOutStudent db u sid bh t).2.payments = db.payments := by
  simp only [checkOutStudent]
  repeat' split
  all_goals simp

theorem applyOp_rooms (db : Db) (op : Op) : (applyOp db op).rooms = db.rooms := by
  cases op with
  | allocateOp u req env => exact (allocate_frame db u req env).1
  | payOp u aid amt now env => exact (recordPayment_frame db u aid amt now env).1
  | deleteAllocOp u aid => exact (deleteAllocation_frame db u aid).1
  | checkInOp u sid bh t => exact (checkInStudent_frame db u sid bh t).1
  | checkOutOp u sid bh t => exact (checkOutStudent_frame db u sid bh t).1

theorem runOps_rooms (ops : List Op) : ∀ db : Db, (runOps db ops).rooms = db.rooms := by
  induction ops with
  | nil => intro db; rfl
  | cons op ops ih =>
    intro db
    show (runOps (applyOp db op) ops).rooms = db.rooms
    rw [ih (applyOp db op), applyOp_rooms]

/-! ### Preservation of the one-allocation-per-(student, semester) rule -/

/-- Helper: an allocate response flagged successful carries an `ok`
variant. -/
theorem isAllocOk_exists {r : Except AllocErr AllocOk × Db}
    (h : isAllocOk r = true) : ∃ o, r.1 = .ok o := by
  rcases r with ⟨r1, d⟩
  cases r1 with
  | ok o => exact ⟨o, rfl⟩
  | error e => simp [isAllocOk] at h

theorem allocate_preserves_allocUnique (db : Db) (u : User) (req : AllocateReq)
    (env : NotifyEnv) (h : allocUnique db) :
    allocUnique (allocate db u req env).2 := by
  by_cases hok : isAllocOk (allocate db u req env) = true
  · rcases isAllocOk_exists hok with ⟨o, ho⟩
    rcases allocate_ok_inv db u req env o ho with
      ⟨effH, room, student, semId, dpp, _, _, _, _, _, _, hnoalloc, _, _, _, hdb⟩
    unfold allocUnique at h ⊢
    rw [hdb]
    simp only
    rw [List.pairwise_append]
    constructor
    · exact h
    constructor
    · simp
    intro a ha b hb
    rw [List.mem_singleton] at hb
    subst hb
    rw [findAllocForStudent, List.find?_eq_none] at hnoalloc
    have := hnoalloc a ha
    simp only [Bool.and_eq_true, beq_iff_eq, not_and] at this
    intro hcon
    simp only at hcon
    exact this hcon.1 hcon.2
  · rw [allocate_not_ok_state db u req env (by simpa using hok)]
    exact h

theorem applyOp_preserves_allocUnique (db : Db) (op : Op) (h : allocUnique db) :
    allocUnique (applyOp db op) := by
  cases op with
  | allocateOp u req env => exact allocate_preserves_allocUnique db u req env h
  | payOp u aid amt now env =>
    unfold allocUnique at h ⊢
    rw [applyOp, (recordPayment_frame db u aid amt now env).2.1]
    exact h
  | deleteAllocOp u aid =>
    rcases deleteAllocation_db_cases db u aid with hdb | hdb
    · rw [applyOp, hdb]; exact h
    · unfold allocUnique at h ⊢
      rw [applyOp, hdb]
      exact List.Pairwise.sublist (List.filter_sublist _) h
  | checkInOp u sid bh t =>
    unfold allocUnique at h ⊢
    rw [applyOp, (checkInStudent_frame db u sid bh t).2.1]
    exact h
  | checkOutOp u sid bh t =>
    unfold allocUnique at h ⊢
    rw [applyOp, (checkOutStudent_frame db u sid bh t).2.1]
    exact h

theorem runOps_preserves_allocUnique (ops : List Op) :
    ∀ db : Db, allocUnique db → allocUnique (runOps db ops) := by
  induction ops with
  | nil => intro db h; exact h
  | cons op ops ih =>
    intro db h
    exact ih (applyOp db op) (applyOp_preserves_allocUnique db op h)

/-! ### Preservation of the occupancy bound -/

theorem allocate_preserves_occupancy (db : Db) (u : User) (req : AllocateReq)
    (env : NotifyEnv) (hwr : roomsWf db) (h : occupancyInvariant db) :
    occupancyInvariant (allocate db u req env).2 := by
  by_cases hok : isAllocOk (allocate db u req env) = true
  · rcases isAllocOk_exists hok with ⟨o, ho⟩
    rcases allocate_ok_inv db u req env o ho with
      ⟨effH, room, student, semId, dpp, _, hroom, _, _, _, _, _, hcap, _, _, hdb⟩
    have hroomid : room.id = req.roomId := by
      have := List.find?_some hroom
      simp only [Bool.and_eq_true, beq_iff_eq] at this
      exact this.1
    have hroommem : room ∈ db.rooms := List.mem_of_find?_eq_some hroom
    intro r hr sem
    rw [hdb] at hr ⊢
    simp only at hr
    rw [countOccupied]
    simp only
    rw [occupiedCount_append_single]
    split
    next hmatch =>
      simp only at hmatch
      have hrid : r.id = room.id := by rw [← hmatch.1]
      have hreq : r = room := eq_of_mem_pairwiseKeys hwr hr hroommem hrid
      have hlt : occupiedCount db.allocations db.checkIns r.id sem < effCapacity r := by
        rw [hrid, hroomid, ← hmatch.2.1, hreq]
        exact hcap
      omega
    next =>
      have := h r hr sem
      rw [countOccupied] at this
      omega
  · rw [allocate_not_ok_state db u req env (by simpa using hok)]
    exact h

theorem applyOp_preserves_occupancy (db : Db) (op : Op) (hwr : roomsWf db)
    (h : occupancyInvariant db) : occupancyInvariant (applyOp db op) := by
  cases op with
  | allocateOp u req env => exact allocate_preserves_occupancy db u req env hwr h
  | payOp u aid amt now env =>
    intro r hr sem
    rw [applyOp] at hr ⊢
    have hf := recordPayment_frame db u aid amt now env
    show occupiedCount (recordPayment db u aid amt now env).2.allocations
      (recordPayment db u aid amt now env).2.checkIns r.id sem ≤ effCapacity r
    rw [hf.2.1, hf.2.2]
    have hr2 : r ∈ db.rooms := by rw [hf.1] at hr; exact hr
    exact h r hr2 sem
  | deleteAllocOp u aid =>
    rcases deleteAllocation_db_cases db u aid with hdb | hdb
    · rw [applyOp, hdb]; exact h
    · intro r hr sem
      rw [applyOp, hdb] at hr ⊢
      simp only at hr ⊢
      rw [countOccupied]
      simp only
      calc occupiedCount (db.allocations.filter (fun a => !(a.id == aid)))
            db.checkIns r.id sem
          ≤ occupiedCount db.allocations db.checkIns r.id sem :=
            occupiedCount_le_of_sub _ _ _ _ _
        _ ≤ effCapacity r := h r hr sem
  | checkInOp u sid bh t =>
    rcases checkInStudent_db_cases db u sid bh t with hdb | ⟨ci, hopen, hdb⟩
    · rw [applyOp, hdb]; exact h
    · intro r hr sem
      rw [applyOp, hdb] at hr ⊢
      simp only at hr ⊢
      rw [countOccupied]
      simp only
      rw [occupiedCount_congr_checkIns db.allocations db.checkIns
        (db.checkIns ++ [ci]) r.id sem
        (fun sid2 sem2 => hasClosedCheckIn_append_open db.checkIns ci hopen sid2 sem2)]
      exact h r hr sem
  | checkOutOp u sid bh t =>
    rcases checkOutStudent_db_cases db u sid bh t with hdb | ⟨targetId, hdb⟩
    · rw [applyOp, hdb]; exact h
    · intro r hr sem
      rw [applyOp, hdb] at hr ⊢
      simp only at hr ⊢
      rw [countOccupied]
      simp only
      calc occupiedCount db.allocations
            (db.checkIns.map (fun c =>
              if c.id == targetId then
                { c with checkedOutAt := some t, checkedOutByUserId := some u.sub }
              else c)) r.id sem
          ≤ occupiedCount db.allocations db.checkIns r.id sem :=
            occupiedCount_le_of_closures _ _ _ _ _
              (fun sid2 sem2 hc =>
                hasClosedCheckIn_map_close db.checkIns targetId t u.sub sid2 sem2 hc)
        _ ≤ effCapacity r := h r hr sem

theorem runOps_preserves_occupancy (ops : List Op) :
    ∀ db : Db, roomsWf db → occupancyInvariant db →
      occupancyInvariant (runOps db ops) := by
  induction ops with
  | nil => intro db _ h; exact h
  | cons op ops ih =>
    intro db hwr h
    refine ih (applyOp db op) ?_ (applyOp_preserves_occupancy db op hwr h)
    unfold roomsWf
    rw [applyOp_rooms]
    exact hwr

/-- C3: for a student with no prior allocation in their semester (and all
other preconditions met), allocate succeeds exactly once — creating exactly
one allocation row — and an identical second call fails with Conflict (409)
leaving the state unchanged; if the student already holds an allocation for a
different room, allocate fails with Conflict (409) and creates no row; and
the at-most-one-allocation-per-(student, semester) invariant is preserved by
every sequential execution of the embedded operations. -/
theorem c3_allocate_idempotency (db : Db) (u : User) (req : AllocateReq)
    (env : NotifyEnv) (ops : List Op) :
    (∀ (effH : Nat) (room : Room) (student : Student) (semId : Nat),
      resolveHostel u req.hostelId = .ok effH →
      findRoom db req.roomId = some room →
      room.hostelId = effH →
      findStudent db req.studentId = some student →
      student.hostelId = effH →
      optTruthy student.semesterId = some semId →
      findAllocForStudent db req.studentId semId = none →
      countOccupied db req.roomId semId < effCapacity room →
      req.displayPrice = none →
      isAllocOk (allocate db u req env) = true ∧
      (allocate db u req env).2.allocations = db.allocations ++
        [{ id := db.nextAllocationId, hostelId := effH, semesterId := semId,
           studentId := req.studentId, roomId := room.id,
           roomPriceAtAllocation := pricePerStudentFn room.price (effCapacity room),
           displayPriceAtAllocation := none }] ∧
      allocate (allocate db u req env).2 u req env =
        (.error .alreadyAllocatedSameRoom, (allocate db u req env).2) ∧
      AllocErr.status .alreadyAllocatedSameRoom = 409) ∧
    (∀ (effH : Nat) (room : Room) (student : Student) (semId : Nat)
        (a0 : Allocation),
      resolveHostel u req.hostelId = .ok effH →
      findRoom db req.roomId = some room →
      room.hostelId = effH →
      findStudent db req.studentId = some student →
      student.hostelId = effH →
      optTruthy student.semesterId = some semId →
      findAllocForStudent db req.studentId semId = some a0 →
      a0.roomId ≠ req.roomId →
      req.displayPrice = none →
      allocate db u req env = (.error (.alreadyAllocatedOtherRoom a0.roomId), db) ∧
      AllocErr.status (.alreadyAllocatedOtherRoom a0.roomId) = 409) ∧
    (allocUnique db → allocUnique (runOps db ops)) := by
  refine ⟨?_, ?_, fun h => runOps_preserves_allocUnique ops db h⟩
  · intro effH room student semId hres hroom hrh hstud hsh hsem hnoalloc hcap hdp
    have heval := allocate_eval_ok env hres hroom hrh hstud hsh hsem
      hnoalloc hcap hdp
    have hroomid : room.id = req.roomId := by
      have := List.find?_some hroom
      simp only [Bool.and_eq_true, beq_iff_eq] at this
      exact this.1
    rw [heval]
    set row : Allocation :=
      { id := db.nextAllocationId, hostelId := effH, semesterId := semId,
        studentId := req.studentId, roomId := room.id,
        roomPriceAtAllocation := pricePerStudentFn room.price (effCapacity room),
        displayPriceAtAllocation := none } with hrow
    refine ⟨rfl, rfl, ?_, rfl⟩
    have hfound : findAllocForStudent
        { db with
          allocations := db.allocations ++ [row]
          nextAllocationId := db.nextAllocationId + 1 } req.studentId semId =
        some row := by
      show (db.allocations ++ [row]).find?
        (fun a => a.studentId == req.studentId && a.semesterId == semId) = some row
      rw [find?_append_of_none hnoalloc]
      simp [hrow]
    exact allocate_eval_conflict_same env hres hroom hrh hstud hsh hsem hfound
      (by rw [hrow]; exact hroomid) (by rw [hdp])
  · intro effH room student semId a0 hres hroom hrh hstud hsh hsem hfound hdiff hdp
    exact ⟨allocate_eval_conflict_other env hres hroom hrh hstud hsh hsem hfound hdiff
      (by rw [hdp]), rfl⟩

/-- C3 witness: in the concrete fixture, allocating student 10 to room 20
succeeds, and immediately repeating the identical call answers 409. -/
theorem c3_allocate_idempotency_witness :
    isAllocOk (allocate wDb wUser wReqPlain wEnv) = true ∧
    allocate (allocate wDb wUser wReqPlain wEnv).2 wUser wReqPlain wEnv =
      (.error .alreadyAllocatedSameRoom, (allocate wDb wUser wReqPlain wEnv).2) := by
  have h := (c3_allocate_idempotency wDb wUser wReqPlain wEnv []).1 1 wRoom wStudent 7
    (by decide) (by decide) (by decide) (by decide) (by decide) (by decide)
    (by decide) (by decide) (by decide)
  exact ⟨h.1, h.2.2.1⟩

/-! ### Lemmas about the C4 fixture family -/

theorem c4_effCap (n : Nat) (p : ℚ) (hn : 1 ≤ n) : effCapacity (c4Room n p) = n := by
  rw [effCapacity, c4Room]
  simp only
  rw [if_neg (by omega : ¬n = 0)]

theorem c4_findRoom (n : Nat) (p : ℚ) (k : Nat) :
    findRoom (fillRoom n p k) 5 = some (c4Room n p) := by
  rw [findRoom, fillRoom]
  simp [List.find?, c4Room]

theorem find?_c4Student_range (j : Nat) : ∀ (m s : Nat), s ≤ j → j < s + m →
    ((List.range' s m).map c4Student).find? (fun st => st.id == j + 1) =
      some (c4Student j) := by
  intro m
  induction m with
  | zero => intro s h1 h2; omega
  | succ m ih =>
    intro s h1 h2
    show ((c4Student s :: (List.range' (s + 1) m).map c4Student).find?
      (fun st => st.id == j + 1)) = some (c4Student j)
    rw [List.find?_cons]
    by_cases hs : s = j
    · subst hs
      simp [c4Student]
    · have hfalse : ((c4Student s).id == j + 1) = false := by
        simp [c4Student]
        omega
      rw [hfalse]
      exact ih (s + 1) (by omega) (by omega)

theorem c4_findStudent (n : Nat) (p : ℚ) (k j : Nat) (hj : j < n + 1) :
    findStudent (fillRoom n p k) (j + 1) = some (c4Student j) := by
  rw [findStudent, fillRoom]
  simp only
  rw [List.range_eq_range']
  exact find?_c4Student_range j (n + 1) 0 (Nat.zero_le j) (by omega)

theorem c4_noalloc (n : Nat) (p : ℚ) (k : Nat) :
    findAllocForStudent (fillRoom n p k) (k + 1) 7 = none := by
  rw [findAllocForStudent, fillRoom]
  simp only
  rw [List.find?_eq_none]
  intro a ha
  rcases List.mem_map.mp ha with ⟨i, hi, rfl⟩
  rw [List.mem_range] at hi
  simp [c4Alloc]
  omega

theorem c4_count (n : Nat) (p : ℚ) (k : Nat) :
    countOccupied (fillRoom n p k) 5 7 = k ∧ rowsForRoom (fillRoom n p k) 5 7 = k := by
  constructor
  · rw [countOccupied, fillRoom]
    simp only
    rw [occupiedCount]
    rw [List.filter_eq_self.mpr]
    · rw [List.length_map, List.length_range]
    · intro a ha
      rcases List.mem_map.mp ha with ⟨i, hi, rfl⟩
      simp [c4Alloc, hasClosedCheckIn]
  · rw [rowsForRoom, fillRoom]
    simp only
    rw [List.filter_eq_self.mpr]
    · rw [List.length_map, List.length_range]
    · intro a ha
      rcases List.mem_map.mp ha with ⟨i, hi, rfl⟩
      simp [c4Alloc]

theorem c4_step (n : Nat) (p : ℚ) (hn : 1 ≤ n) (k : Nat) (hk : k < n) :
    isAllocOk (allocate (fillRoom n p k) wUser (c4Req k) wEnv) = true ∧
    (allocate (fillRoom n p k) wUser (c4Req k) wEnv).2 = fillRoom n p (k + 1) := by
  have heval := allocate_eval_ok wEnv
    (rfl : resolveHostel wUser (c4Req k).hostelId = .ok 1)
    (c4_findRoom n p k) (by rw [c4Room]) (c4_findStudent n p k k (by omega))
    (by rw [c4Student]) (rfl : optTruthy (c4Student k).semesterId = some 7)
    (c4_noalloc n p k)
    (by show countOccupied (fillRoom n p k) 5 7 < effCapacity (c4Room n p)
        rw [(c4_count n p k).1, c4_effCap n p hn]; exact hk)
    (rfl : (c4Req k).displayPrice = none)
  rw [heval]
  refine ⟨rfl, ?_⟩
  simp only [fillRoom, c4Req]
  simp [List.range_succ, c4Alloc, c4Room]

/-- C4: from an empty room of capacity `n ≥ 1`, the first `n` allocate calls
(for distinct registered students with no closed check-ins) each succeed and
advance the state by exactly one allocation row, and the `(n+1)`-th call
fails with the ValidationError `roomFull n n` (400) leaving the state
unchanged; the occupied count of the reached states equals the number of
allocated students; and in general — all earlier checks passing — allocate
rejects exactly when the occupied count (allocations for the room and
semester whose student has no closed check-in for that semester) has reached
the effective capacity. -/
theorem c4_capacity_boundary (n : Nat) (p : ℚ) (hn : 1 ≤ n) :
    (∀ k, k < n →
      isAllocOk (allocate (fillRoom n p k) wUser (c4Req k) wEnv) = true ∧
      (allocate (fillRoom n p k) wUser (c4Req k) wEnv).2 = fillRoom n p (k + 1)) ∧
    (allocate (fillRoom n p n) wUser (c4Req n) wEnv =
      (.error (.roomFull n n), fillRoom n p n) ∧
      AllocErr.status (.roomFull n n) = 400) ∧
    (∀ k, countOccupied (fillRoom n p k) 5 7 = k) ∧
    (∀ (db : Db) (u : User) (req : AllocateReq) (env : NotifyEnv) (effH : Nat)
        (room : Room) (student : Student) (semId : Nat),
      resolveHostel u req.hostelId = .ok effH →
      findRoom db req.roomId = some room →
      room.hostelId = effH →
      findStudent db req.studentId = some student →
      student.hostelId = effH →
      optTruthy student.semesterId = some semId →
      findAllocForStudent db req.studentId semId = none →
      req.displayPrice = none →
      (effCapacity room ≤ countOccupied db req.roomId semId →
        allocate db u req env =
          (.error (.roomFull (countOccupied db req.roomId semId)
            (effCapacity room)), db)) ∧
      (countOccupied db req.roomId semId < effCapacity room →
        isAllocOk (allocate db u req env) = true)) := by
  refine ⟨fun k hk => c4_step n p hn k hk, ⟨?_, rfl⟩, fun k => (c4_count n p k).1, ?_⟩
  · have heval := allocate_eval_full wEnv
      (rfl : resolveHostel wUser (c4Req n).hostelId = .ok 1)
      (c4_findRoom n p n) (by rw [c4Room]) (c4_findStudent n p n n (by omega))
      (by rw [c4Student]) (rfl : optTruthy (c4Student n).semesterId = some 7)
      (c4_noalloc n p n)
      (by show effCapacity (c4Room n p) ≤ countOccupied (fillRoom n p n) 5 7
          rw [(c4_count n p n).1, c4_effCap n p hn])
      (rfl : (match (c4Req n).displayPrice with
              | some dp => decide (dp < 1/100)
              | none => false) = false)
    rw [heval]
    show (Except.error (AllocErr.roomFull (countOccupied (fillRoom n p n) 5 7)
      (effCapacity (c4Room n p))), fillRoom n p n) = _
    rw [(c4_count n p n).1, c4_effCap n p hn]
  · intro db u req env effH room student semId hres hroom hrh hstud hsh hsem
      hnoalloc hdp
    constructor
    · intro hge
      exact allocate_eval_full env hres hroom hrh hstud hsh hsem hnoalloc hge
        (by rw [hdp])
    · intro hlt
      rw [allocate_eval_ok env hres hroom hrh hstud hsh hsem hnoalloc hlt hdp]
      rfl

/-- C4 witness: with price 600000 and capacity 2, the first two allocations
succeed and the third answers the capacity ValidationError `roomFull 2 2`. -/
theorem c4_capacity_boundary_witness :
    isAllocOk (allocate (fillRoom 2 600000 0) wUser (c4Req 0) wEnv) = true ∧
    isAllocOk (allocate (fillRoom 2 600000 1) wUser (c4Req 1) wEnv) = true ∧
    allocate (fillRoom 2 600000 2) wUser (c4Req 2) wEnv =
      (.error (.roomFull 2 2), fillRoom 2 600000 2) := by
  have h := c4_capacity_boundary 2 600000 (by norm_num)
  exact ⟨(h.1 0 (by norm_num)).1, (h.1 1 (by norm_num)).1, h.2.1.1⟩

/-- C10: a closed check-in removes a student from the capacity count but not
from the allocations table — any further allocate call for that student and
semester still fails with Conflict (409) and changes nothing; consequently, in
a reachable concrete history (capacity-1 room: allocate, check in, check out,
allocate another student) the room holds 2 allocation rows, above its
capacity 1, while the counted occupancy is 1; and the counted occupancy never
exceeds the effective capacity in any sequential execution of the embedded
operations. -/
theorem c10_checkout_capacity (db : Db) (u : User) (req : AllocateReq)
    (env : NotifyEnv) (ops : List Op) :
    (∀ (effH : Nat) (room : Room) (student : Student) (semId : Nat)
        (a0 : Allocation),
      resolveHostel u req.hostelId = .ok effH →
      findRoom db req.roomId = some room →
      room.hostelId = effH →
      findStudent db req.studentId = some student →
      student.hostelId = effH →
      optTruthy student.semesterId = some semId →
      findAllocForStudent db req.studentId semId = some a0 →
      hasClosedCheckIn db.checkIns req.studentId semId = true →
      req.displayPrice = none →
      (a0.roomId = req.roomId →
        allocate db u req env = (.error .alreadyAllocatedSameRoom, db) ∧
        AllocErr.status .alreadyAllocatedSameRoom = 409) ∧
      (a0.roomId ≠ req.roomId →
        allocate db u req env = (.error (.alreadyAllocatedOtherRoom a0.roomId), db) ∧
        AllocErr.status (.alreadyAllocatedOtherRoom a0.roomId) = 409)) ∧
    (rowsForRoom c10Final 5 7 = 2 ∧ countOccupied c10Final 5 7 = 1 ∧
      (∀ r ∈ c10Final.rooms, effCapacity r = 1) ∧
      rowsForRoom c10Db0 5 7 = 0) ∧
    (roomsWf db → occupancyInvariant db →
      occupancyInvariant (runOps db ops)) := by
  refine ⟨?_, ?_, fun hw h => runOps_preserves_occupancy ops db hw h⟩
  · intro effH room student semId a0 hres hroom hrh hstud hsh hsem hfound hclosed hdp
    constructor
    · intro hsame
      exact ⟨allocate_eval_conflict_same env hres hroom hrh hstud hsh hsem hfound hsame
        (by rw [hdp]), rfl⟩
    · intro hdiff
      exact ⟨allocate_eval_conflict_other env hres hroom hrh hstud hsh hsem hfound hdiff
        (by rw [hdp]), rfl⟩
  · refine ⟨by decide, by decide, by decide, by decide⟩

/-- C10 witness: in the reached fixture state, student 10 is checked out but
their allocation row blocks any re-allocation with a 409. -/
theorem c10_checkout_capacity_witness :
    hasClosedCheckIn c10Final.checkIns 10 7 = true ∧
    allocate c10Final wUser c10Req1 wEnv =
      (.error .alreadyAllocatedSameRoom, c10Final) ∧
    AllocErr.status .alreadyAllocatedSameRoom = 409 := by
  refine ⟨by decide, ?_⟩
  exact ((c10_checkout_capacity c10Final wUser c10Req1 wEnv []).1 1
    { id := 5, hostelId := 1, price := 100, capacity := 1, isActive := true }
    wStudent 7
    { id := 1, hostelId := 1, semesterId := 7, studentId := 10, roomId := 5,
      roomPriceAtAllocation := 100, displayPriceAtAllocation := none }
    (by decide) (by decide) (by decide) (by decide) (by decide) (by decide)
    (by decide) (by decide) (by decide)).1 (by decide)

/-- C8 counterexample: for a SUPER_ADMIN querying hostel 1 — for which no
active semester resolves — `GET /payments` does not return an empty list: it
falls back to listing every payment, including the one recorded under semester 9 of hostel 2.  The same happens on `GET /payments/allocations`. -/
theorem c8_no_semester_counterexample :
    activeSemesterFor w8Db 1 = none ∧
    listPayments w8Db w8Admin (some 1) = .ok [w8Payment] ∧
    w8Payment.semesterId = 9 ∧
    w8Db.semesters.all (fun s => s.hostelId != 1) = true ∧
    listAllocations w8Db w8Admin (some 1) =
      .ok [{ id := 5, hostelId := 2, semesterId := 9, studentId := 11,
             roomId := 3, roomPriceAtAllocation := 50,
             displayPriceAtAllocation := none }] := by
  refine ⟨by decide, ?_, by decide, by decide, ?_⟩ <;> decide

/-- C8 (amended): for CUSTODIAN and HOSTEL_OWNER callers (any caller that is
not a SUPER_ADMIN) linked to a hostel with no active semester, the
semester-scoped listing endpoints all answer success with empty lists / zero
totals: `GET /payments` and `GET /payments/allocations` return `[]`, and
`GET /expenses` / `GET /expenses/stats` (without an explicit semesterId
override) return an empty page and zero totals.  For a SUPER_ADMIN supplying
a hostel with no active semester, the payments and allocations endpoints
instead fall back to the unscoped listing of all rows. -/
theorem c8_no_semester_empty (db : Db) (u : User) (h : Nat) (q : ExpenseQuery)
    (hrole : u.role ≠ Role.SUPER_ADMIN)
    (hlink : u.hostelId = some h) (h0 : h ≠ 0)
    (hnosem : activeSemesterFor db h = none)
    (hq : optTruthy q.semesterId = none) :
    listPayments db u none = .ok [] ∧
    listAllocations db u none = .ok [] ∧
    (∃ lim off : Nat,
      listExpenses db u q = .ok { expenses := [], total := 0, limit := lim, offset := off }) ∧
    expenseStats db u q = .ok { total := 0, byCategory := [] } := by
  have htr : optTruthy u.hostelId = some h := by
    rw [hlink]; simp [optTruthy, h0]
  refine ⟨?_, ?_, ?_, ?_⟩
  · simp [listPayments, hrole, htr, hnosem]
  · simp [listAllocations, hrole, htr, hnosem]
  · refine ⟨(match optTruthy q.limit with | some l => l | none => 1000),
      (match optTruthy q.offset with | some o => o | none => 0), ?_⟩
    simp only [listExpenses, if_neg hrole, htr]
    simp [hnosem, hq]
  · simp only [expenseStats, if_neg hrole, htr]
    simp [hnosem, hq]

/-- C8 witness: the concrete custodian of hostel 1 (which has no active
semester in the fixture) receives empty results from all four endpoints. -/
theorem c8_no_semester_empty_witness :
    listPayments w8Db wUser none = .ok [] ∧
    listAllocations w8Db wUser none = .ok [] ∧
    listExpenses w8Db wUser emptyExpenseQuery =
      .ok { expenses := [], total := 0, limit := 1000, offset := 0 } ∧
    expenseStats w8Db wUser emptyExpenseQuery = .ok { total := 0, byCategory := [] } := by
  have h := c8_no_semester_empty w8Db wUser 1 emptyExpenseQuery (by decide) (by decide)
    (by decide) (by decide) (by decide)
  exact ⟨h.1, h.2.1, by decide, h.2.2.2⟩

end HMS
